import Mathlib

/-!
Verification of the connection-based topology compiler of the
Infrastructure Designer backend (the connection-based revision of
server.js).  Devices and pairwise connections are compiled into network
segments, per-device per-interface IP assignments, and KubeVirt manifest
documents (PVCs, NetworkAttachmentDefinitions, VirtualMachines).

The JavaScript source is embedded shallowly: JS strings are Lean Strings,
JS objects are structures, absent/null fields are Option, JS Map and
plain-object dictionaries are association lists in insertion order, and
the one reachable runtime exception (reading [0] of a null regexp match)
is modelled by Option/none.  The wall clock (new Date().toISOString())
is passed in as an explicit string parameter.
-/

namespace DbArch

/-- Whitespace class used by the JS trim and the whitespace-stripping
regular expression (the ASCII part of the JS \s class, which is the only
part exercised by this program's inputs). -/
def isJsSpace (c : Char) : Bool :=
  c = ' ' || c = '\t' || c = '\n' || c = '\r' || c = '\x0b' || c = '\x0c'

/-- JS String.prototype.trim on a character list. -/
def trimChars (l : List Char) : List Char :=
  ((l.dropWhile isJsSpace).reverse.dropWhile isJsSpace).reverse

/-- JS String.prototype.trim. -/
def jsTrim (s : String) : String := String.mk (trimChars s.data)

/-- Truthiness of an optional JS string: null/undefined and the empty
string are falsy. -/
def jsTruthy (o : Option String) : Bool :=
  match o with
  | some s => s != ""
  | none => false

/-- A truthy optional string as a zero- or one-element list (models the
conditional pushes that build the candidate-IP array). -/
def optTruthyToList (o : Option String) : List String :=
  match o with
  | some s => if s != "" then [s] else []
  | none => []

/-- Association-list lookup (JS Map.get / object property read). -/
def lookupA {α : Type} (m : List (String × α)) (k : String) : Option α :=
  (m.find? (fun p => p.1 == k)).map (·.2)

/-- JS String.prototype.split with a one-character separator, on a
character list ('' splits to ['']). -/
def splitOnChar (sep : Char) : List Char → List (List Char)
  | [] => [[]]
  | c :: rest =>
    if c = sep then [] :: splitOnChar sep rest
    else
      match splitOnChar sep rest with
      | h :: t => (c :: h) :: t
      | [] => [[c]]

/-- JS String.prototype.split with a one-character separator. -/
def jsSplit (sep : Char) (s : String) : List String :=
  (splitOnChar sep s.data).map String.mk

/-- JS String.prototype.toLowerCase (ASCII). -/
def jsLower (s : String) : String := String.mk (s.data.map Char.toLower)

/-- Decimal value of a digit string. -/
def digitsToNat (l : List Char) : Nat :=
  l.foldl (fun n c => 10 * n + (c.toNat - 48)) 0

/-- Hexadecimal value of a hex-digit string. -/
def hexToNat (l : List Char) : Nat :=
  l.foldl (fun n c =>
    16 * n + (if c.isDigit then c.toNat - 48
              else if 'a' ≤ c && c ≤ 'f' then c.toNat - 87
              else c.toNat - 55)) 0

def isHexDigit (c : Char) : Bool :=
  c.isDigit || ('a' ≤ c && c ≤ 'f') || ('A' ≤ c && c ≤ 'F')

/-- Exponent suffix of a JS numeric literal; the value so far is num/den. -/
def parseExpPart (cs : List Char) (num : Int) (den : Nat) : Option (Int × Nat) :=
  match cs with
  | [] => some (num, den)
  | e :: rest =>
    if e = 'e' || e = 'E' then
      let sd : Int × List Char :=
        match rest with
        | '+' :: r => (1, r)
        | '-' :: r => (-1, r)
        | r => (1, r)
      if sd.2 ≠ [] && sd.2.all Char.isDigit then
        let k := digitsToNat sd.2
        if sd.1 ≥ 0 then some (num * (10 : Int) ^ k, den) else some (num, den * 10 ^ k)
      else none
    else none

/-- Unsigned decimal part (digits, optional fraction, optional exponent)
of a JS numeric literal.  Result is a fraction num/den. -/
def parseDec (cs : List Char) : Option (Int × Nat) :=
  let ipart := cs.takeWhile Char.isDigit
  let rest1 := cs.dropWhile Char.isDigit
  match rest1 with
  | [] => if ipart = [] then none else some ((digitsToNat ipart : Int), 1)
  | '.' :: rest2 =>
    let fpart := rest2.takeWhile Char.isDigit
    let rest3 := rest2.dropWhile Char.isDigit
    if ipart = [] && fpart = [] then none
    else parseExpPart rest3 ((digitsToNat (ipart ++ fpart) : Int)) (10 ^ fpart.length)
  | _ => if ipart = [] then none else parseExpPart rest1 ((digitsToNat ipart : Int)) 1

/-- Signed decimal JS numeric literal. -/
def parseSignedDec (cs : List Char) : Option (Int × Nat) :=
  match cs with
  | '+' :: rest => parseDec rest
  | '-' :: rest => (parseDec rest).map (fun p => (-p.1, p.2))
  | _ => parseDec cs

/-- JS Number coercion of a string, as an exact fraction num/den; none
models NaN.  Out-of-range values such as Infinity are also mapped to
none: the analyzer only ever tests membership of the coerced value in
the interval 0..255, for which that is equivalent. -/
def parseJsNumber (s : String) : Option (Int × Nat) :=
  let cs := trimChars s.data
  if cs = [] then some (0, 1)
  else
    match cs with
    | '0' :: x :: rest =>
      if x = 'x' || x = 'X' then
        if rest ≠ [] && rest.all isHexDigit then some ((hexToNat rest : Int), 1) else none
      else parseSignedDec cs
    | _ => parseSignedDec cs

/-- The per-octet test the analyzer applies to each dot-separated part:
not NaN, at least 0 and at most 255 (JS coerces the part string to a
number for all three tests). -/
def jsOctetOk (part : String) : Bool :=
  match parseJsNumber part with
  | some p => decide (0 ≤ p.1) && decide (p.1 ≤ 255 * (p.2 : Int))
  | none => false

/-- A device record as stored by the registry.  The field interfaceIPs
is the lazily populated router interface-IP dictionary. -/
structure Device where
  id : String
  type : String
  cpu : Option String
  memory : Option String
  storage : Option String
  ip : Option String
  interfaceIPs : Option (List (String × String))
deriving Repr, DecidableEq

/-- A connection record; fromId and toId are the fields named from and
to in the source (from is a Lean keyword). -/
structure Connection where
  fromId : String
  toId : String
  fromRouterIP : Option String
  toRouterIP : Option String
  originalSpeed : Option String
deriving Repr, DecidableEq

/-- A derived network segment.  devA and devB are the two-element
devices array; detectedFromIP and allConnectionIPs are the diagnostic
fields the analyzer records. -/
structure Segment where
  name : String
  subnet : String
  networkBase : String
  devA : String
  devB : String
  speed : Option String
  connectionId : String
  detectedFromIP : Option String
  allConnectionIPs : List String
deriving Repr, DecidableEq

/-- One per-interface IP assignment. -/
structure Assignment where
  network : String
  ip : String
  subnet : String
  gateway : String
  interfaceName : String
  isCustomIP : Bool
  connectionId : String
deriving Repr, DecidableEq

/-- The candidate-IP array of a connection: router interface IPs from
the connection first, then the two endpoint devices' static IPs. -/
def connectionIPs (devices : List Device) (c : Connection) : List String :=
  optTruthyToList c.fromRouterIP ++ optTruthyToList c.toRouterIP ++
    (match devices.find? (fun d => d.id == c.fromId) with
     | some d => optTruthyToList d.ip
     | none => []) ++
    (match devices.find? (fun d => d.id == c.toId) with
     | some d => optTruthyToList d.ip
     | none => [])

/-- The segment the analyzer builds for one fresh connection at the
given value of segmentCounter.  Only the first candidate IP is parsed;
if it is a valid dotted quad its first three octets become the network
base, otherwise the synthetic fallback 192.168.counter is used. -/
def mkSegment (devices : List Device) (counter : Nat) (c : Connection) : Segment :=
  let fallbackBase := "192.168." ++ toString counter
  let ips := connectionIPs devices c
  let bs : String × String :=
    match ips with
    | [] => (fallbackBase ++ ".0/24", fallbackBase)
    | ip :: _ =>
      let parts := jsSplit '.' ip
      if parts.length == 4 && parts.all jsOctetOk then
        let base := parts.getD 0 "" ++ "." ++ parts.getD 1 "" ++ "." ++ parts.getD 2 ""
        (base ++ ".0/24", base)
      else (fallbackBase ++ ".0/24", fallbackBase)
  { name := "net" ++ toString counter
    subnet := bs.1
    networkBase := bs.2
    devA := c.fromId
    devB := c.toId
    speed := c.originalSpeed
    connectionId := c.fromId ++ "-" ++ c.toId
    detectedFromIP := ips.head?
    allConnectionIPs := ips }

def connKey (c : Connection) : String := c.fromId ++ "-" ++ c.toId

def connRevKey (c : Connection) : String := c.toId ++ "-" ++ c.fromId

/-- Push a segment name onto a device's network list (mutating array
push through the Map; a missing key is a no-op here, while the source
would throw -- the registry guarantees both endpoints exist). -/
def pushNetwork (m : List (String × List String)) (k v : String) :
    List (String × List String) :=
  m.map (fun p => if p.1 == k then (p.1, p.2 ++ [v]) else p)

/-- JS Map.set with an empty-list value (initialization loop). -/
def mapSetEmpty (m : List (String × List String)) (k : String) :
    List (String × List String) :=
  if m.any (fun p => p.1 == k) then
    m.map (fun p => if p.1 == k then (p.1, ([] : List String)) else p)
  else m ++ [(k, [])]

/-- Every device starts with an empty network list. -/
def initDeviceNetworks (devices : List Device) : List (String × List String) :=
  devices.foldl (fun m d => mapSetEmpty m d.id) []

structure AnalyzerState where
  segments : List Segment
  deviceNetworks : List (String × List String)
  counter : Nat
  processed : List String
deriving Repr, DecidableEq

/-- One iteration of the analyzer's connection loop: skip a pair whose
key or reverse key was already processed, otherwise record the new
segment, append its name to both endpoint devices' lists, and mark both
key directions processed. -/
def analyzeStep (devices : List Device) (st : AnalyzerState) (c : Connection) :
    AnalyzerState :=
  if st.processed.contains (connKey c) || st.processed.contains (connRevKey c) then st
  else
    let seg := mkSegment devices st.counter c
    { segments := st.segments ++ [seg]
      deviceNetworks := pushNetwork (pushNetwork st.deviceNetworks c.fromId seg.name) c.toId seg.name
      counter := st.counter + 1
      processed := st.processed ++ [connKey c, connRevKey c] }

/-- analyzeConnectionBasedTopology: the map of segments (in creation
order) and the map device-id to ordered list of segment names. -/
def analyzeConnectionBasedTopology (devices : List Device) (conns : List Connection) :
    List Segment × List (String × List String) :=
  let final := conns.foldl (analyzeStep devices)
    { segments := []
      deviceNetworks := initDeviceNetworks devices
      counter := 1
      processed := [] }
  (final.segments, final.deviceNetworks)

/-- Remove the first occurrence of the substring net (JS
String.prototype.replace with a string pattern). -/
def removeFirstNet : List Char → List Char
  | 'n' :: 'e' :: 't' :: rest => rest
  | c :: rest => c :: removeFirstNet rest
  | [] => []

/-- The base network the assigner uses: the segment's networkBase if
truthy, else 192.168.(name without the net prefix). -/
def baseNetworkOf (seg : Segment) : String :=
  if seg.networkBase != "" then seg.networkBase
  else "192.168." ++ String.mk (removeFirstNet seg.name.data)

/-- The first element of the segment's devices array different from the
given id (Array.prototype.find). -/
def segPeer (seg : Segment) (id : String) : Option String :=
  if seg.devA != id then some seg.devA
  else if seg.devB != id then some seg.devB
  else none

/-- The first connection joining the segment's two member devices, in
either orientation. -/
def findSegmentConn (conns : List Connection) (seg : Segment) : Option Connection :=
  conns.find? (fun c =>
    (c.fromId == seg.devA && c.toId == seg.devB) ||
    (c.fromId == seg.devB && c.toId == seg.devA))

/-- Priority 1 of router resolution: the router-side IP recorded on the
connection, guarded by which endpoint this device is. -/
def routerConnIP (c : Connection) (id : String) : Option String :=
  if c.fromId == id && jsTruthy c.fromRouterIP then c.fromRouterIP
  else if c.toId == id && jsTruthy c.toRouterIP then c.toRouterIP
  else none

/-- The assigner's IP resolution for one device on one segment; the
Bool is the isCustomIP flag. -/
def resolveIP (devices : List Device) (conns : List Connection) (device : Device)
    (seg : Segment) (index : Nat) : String × Bool :=
  let base := baseNetworkOf seg
  let segmentConn := findSegmentConn conns seg
  if device.type == "router" then
    match (match segmentConn with
           | some c => routerConnIP c device.id
           | none => none) with
    | some ip => (ip, true)
    | none =>
      match device.interfaceIPs with
      | some m =>
        let peerKey := "to_" ++ ((segPeer seg device.id).getD "undefined")
        match lookupA m peerKey with
        | some v => if v != "" then (v, true) else (base ++ ".1", false)
        | none => (base ++ ".1", false)
      | none => (base ++ ".1", false)
  else
    if index == 0 && jsTruthy device.ip && jsTrim (device.ip.getD "") != "" then
      (jsTrim (device.ip.getD ""), true)
    else if device.type == "switch" then (base ++ ".2", false)
    else
      match (segPeer seg device.id).bind (fun oid => devices.find? (fun d => d.id == oid)) with
      | some od => if od.type == "router" then (base ++ ".10", false) else (base ++ ".11", false)
      | none => (base ++ ".11", false)

/-- The gateway recorded on every assignment of a segment: a
connection-level router-side IP whose endpoint device is a router, else
base.1. -/
def resolveGateway (devices : List Device) (conns : List Connection) (seg : Segment) :
    String :=
  let base := baseNetworkOf seg
  match findSegmentConn conns seg with
  | none => base ++ ".1"
  | some c =>
    let fromIsRouter :=
      match devices.find? (fun d => d.id == c.fromId) with
      | some d => d.type == "router"
      | none => false
    let toIsRouter :=
      match devices.find? (fun d => d.id == c.toId) with
      | some d => d.type == "router"
      | none => false
    if fromIsRouter && jsTruthy c.fromRouterIP then (c.fromRouterIP).getD ""
    else if toIsRouter && jsTruthy c.toRouterIP then (c.toRouterIP).getD ""
    else base ++ ".1"

/-- The assignment object pushed for one device on one segment. -/
def mkAssignment (devices : List Device) (conns : List Connection) (device : Device)
    (index : Nat) (seg : Segment) : Assignment :=
  let r := resolveIP devices conns device seg index
  { network := seg.name
    ip := r.1
    subnet := seg.subnet
    gateway := resolveGateway devices conns seg
    interfaceName := "eth" ++ toString (index + 1)
    isCustomIP := r.2
    connectionId := seg.connectionId }

/-- The assigner's loop over a device's network-name list, with the
0-based interface index; a name with no matching segment is skipped. -/
def assignLoop (devices : List Device) (conns : List Connection) (segs : List Segment)
    (device : Device) : Nat → List String → List Assignment
  | _, [] => []
  | i, name :: rest =>
    (match segs.find? (fun s => s.name == name) with
     | some seg => [mkAssignment devices conns device i seg]
     | none => []) ++ assignLoop devices conns segs device (i + 1) rest

/-- generateConnectionBasedIPAssignments: the map device-id to ordered
assignment list, plus the segment map. -/
def generateConnectionBasedIPAssignments (devices : List Device) (conns : List Connection) :
    List (String × List Assignment) × List Segment :=
  let a := analyzeConnectionBasedTopology devices conns
  (devices.map (fun d =>
      (d.id, assignLoop devices conns a.1 d 0 ((lookupA a.2 d.id).getD []))),
   a.1)

/-- The assignment list the pipeline produces for a given device id. -/
def assignmentsOf (devices : List Device) (conns : List Connection) (id : String) :
    List Assignment :=
  (lookupA (generateConnectionBasedIPAssignments devices conns).1 id).getD []

/-- The segment list the pipeline produces. -/
def pipelineSegments (devices : List Device) (conns : List Connection) : List Segment :=
  (analyzeConnectionBasedTopology devices conns).1

/-- The network-name list the analyzer records for a device id. -/
def networksOfDevice (devices : List Device) (conns : List Connection) (id : String) :
    List String :=
  (lookupA (analyzeConnectionBasedTopology devices conns).2 id).getD []

end DbArch

namespace DbArch

def isBchar (c : Char) : Bool := c = 'B' || c = 'b'

def isGchar (c : Char) : Bool := c = 'G' || c = 'g'

def isMchar (c : Char) : Bool := c = 'M' || c = 'm'

def isTchar (c : Char) : Bool := c = 'T' || c = 't'

/-- One end-anchored replace of digits-then-letter (no B) by
digits-then-letter-then-i, on the reversed character list.  Models the
regexp replace of digits followed by G (or M, T) at end of string. -/
def applyRuleNoB (isL : Char → Bool) (upper : Char) (rev : List Char) : List Char :=
  match rev with
  | l :: d :: rest => if isL l && d.isDigit then 'i' :: upper :: d :: rest else rev
  | _ => rev

/-- One end-anchored replace of digits-then-letter-then-optional-B by
digits-then-letter-then-i, on the reversed character list. -/
def applyRuleB (isL : Char → Bool) (upper : Char) (rev : List Char) : List Char :=
  match rev with
  | b :: l :: d :: rest =>
    if isBchar b && isL l && d.isDigit then 'i' :: upper :: d :: rest
    else applyRuleNoB isL upper rev
  | _ => applyRuleNoB isL upper rev

/-- The six chained replaces of normalizeStorageQuantity, in source
order: GB?, MB?, TB?, then G, M, T, all case-insensitive and
end-anchored, on the reversed character list. -/
def storageRuleChain (rev : List Char) : List Char :=
  applyRuleNoB isTchar 'T' (applyRuleNoB isMchar 'M' (applyRuleNoB isGchar 'G'
    (applyRuleB isTchar 'T' (applyRuleB isMchar 'M' (applyRuleB isGchar 'G' rev)))))

/-- normalizeStorageQuantity: falsy input gives 10Gi; otherwise trim,
strip all whitespace, apply the six suffix replaces, and fall back to
10Gi only when the result is the empty string. -/
def normalizeStorageQuantity (storage : String) : String :=
  if storage == "" then "10Gi"
  else
    let cleaned := (trimChars storage.data).filter (fun c => !isJsSpace c)
    let r := (storageRuleChain cleaned.reverse).reverse
    if r = [] then "10Gi" else String.mk r

/-- First maximal digit run of a string (the match of the digit-run
regexp), none when the string has no digit. -/
def firstDigitRunAux : List Char → Option (List Char)
  | [] => none
  | c :: rest => if c.isDigit then some (c :: rest.takeWhile Char.isDigit)
                 else firstDigitRunAux rest

/-- CPU core count: a truthy cpu string is searched for its first digit
run, which parseInt turns into a number, with 0 falling back to 1; a
cpu string with no digit makes the source read element 0 of a null
match and throw a TypeError, modelled by none; a falsy cpu gives the
default 2 for routers and 1 otherwise. -/
def parseCpuCores (cpu : Option String) (dtype : String) : Option Nat :=
  match cpu with
  | some s =>
    if s != "" then
      match firstDigitRunAux s.data with
      | some ds => let n := digitsToNat ds; some (if n = 0 then 1 else n)
      | none => none
    else some (if dtype == "router" then 2 else 1)
  | none => some (if dtype == "router" then 2 else 1)

/-- First occurrence of Gi or GB (case-insensitive, Gi preferred at the
same position) replaced by G; the replace has no global flag. -/
def replaceGiGB : List Char → List Char
  | g :: x :: rest =>
    if isGchar g && (x = 'i' || x = 'I') then 'G' :: rest
    else if isGchar g && (x = 'B' || x = 'b') then 'G' :: rest
    else g :: replaceGiGB (x :: rest)
  | l => l

/-- Memory quantity: a truthy memory string has its first Gi/GB
decoration stripped to G; a falsy one defaults to 2G for vms and 1G
otherwise. -/
def normalizeMemory (memory : Option String) (dtype : String) : String :=
  match memory with
  | some s =>
    if s != "" then String.mk (replaceGiGB s.data)
    else if dtype == "vm" then "2G" else "1G"
  | none => if dtype == "vm" then "2G" else "1G"

/-- The generation token embedded in machine names: first 16 characters
of the ISO timestamp with colons, dots and T removed, lowercased. -/
def vmTimestampToken (iso : String) : String :=
  String.mk (((iso.data.take 16).filter
    (fun c => c != ':' && c != '.' && c != 'T')).map Char.toLower)

/-- The per-interface lines of the first-boot script (forEach with
index over the assignments). -/
def cloudInitIfaceLines : Nat → List Assignment → String
  | _, [] => ""
  | i, a :: rest =>
    "\n    ip link set enp" ++ toString (i + 2) ++ "s0 name eth" ++ toString (i + 1) ++
    " 2>/dev/null||true\n    ip addr add " ++ a.ip ++ "/24 dev eth" ++ toString (i + 1) ++
    "\n    ip link set eth" ++ toString (i + 1) ++ " up" ++
    cloudInitIfaceLines (i + 1) rest

/-- generateCloudInitForDevice: the compact first-boot script, replaced
by the minimal fallback script when its UTF-8 size exceeds 2000 bytes.
The source also binds a short base-36 clock value here but never uses
it, so the script does not depend on the clock. -/
def generateCloudInitForDevice (device : Device) (assignments : List Assignment) :
    String :=
  let base := "#cloud-config\nhostname: " ++ jsLower device.id ++
    "\nssh_pwauth: true\ndisable_root: false\nchpasswd:\n  list: |\n    root:pass123\n    debian:pass123\n  expire: false"
  let config :=
    if assignments ≠ [] then
      let c1 := base ++
        "\nwrite_files:\n- path: /tmp/net.sh\n  permissions: \x270755\x27\n  content: |\n    #!/bin/bash\n    dhclient enp1s0" ++
        cloudInitIfaceLines 0 assignments
      let c2 :=
        if device.type == "router" then
          c1 ++ "\n    echo 1>/proc/sys/net/ipv4/ip_forward\n    iptables -A FORWARD -j ACCEPT"
        else c1
      let c3 :=
        if device.type == "vm" && decide (assignments.length > 0) then
          c2 ++ "\n    ip route del default via 10.0.2.1 dev enp1s0 2>/dev/null||true" ++
          "\n    ip route add default via " ++ ((assignments.head?.map (·.gateway)).getD "") ++
          " dev eth1 metric 50" ++
          "\n    ip route add default via 10.0.2.1 dev enp1s0 metric 100 2>/dev/null||true"
        else c2
      c3 ++ "\nruncmd:\n- /tmp/net.sh"
    else base ++ "\nruncmd:\n- dhclient enp1s0"
  if config.utf8ByteSize > 2000 then
    let minimal := "#cloud-config\nhostname: " ++ jsLower device.id ++
      "\nssh_pwauth: true\nchpasswd:\n  list: |\n    root:pass123\n  expire: false\nruncmd:\n- dhclient enp1s0"
    if assignments ≠ [] then
      minimal ++ "\n- ip addr add " ++ ((assignments.head?.map (·.ip)).getD "") ++
      "/24 dev enp2s0\n- ip link set enp2s0 up\n- ip route add default via " ++
      ((assignments.head?.map (·.gateway)).getD "") ++ " dev enp2s0"
    else minimal
  else config

/-- A storage-claim document. -/
structure PVCDoc where
  name : String
  deviceId : String
  deviceType : String
  storage : String
deriving Repr, DecidableEq

/-- generateDevicePVC: the claim is named by the stable lowercased
device id with the -pvc suffix; no generation token is involved. -/
def generateDevicePVC (device : Device) : PVCDoc :=
  { name := jsLower device.id ++ "-pvc"
    deviceId := device.id
    deviceType := device.type
    storage := if jsTruthy device.storage
               then normalizeStorageQuantity (device.storage.getD "")
               else "10Gi" }

/-- A network-attachment document. -/
structure NADDoc where
  name : String
  subnet : String
  networkOctet : String
  bridge : String
  subnetLabel : String
  connectionLabel : String
  rangeStart : String
  rangeEnd : String
deriving Repr, DecidableEq

/-- The network-attachment document of one segment: the bridge name is
br followed by the third octet of the subnet, the label replaces dots
and slashes by dashes, the connection label replaces every character
outside word characters and dash by a dash, and the address pool runs
from .10 to .200 of the network base. -/
def mkNADDoc (seg : Segment) : NADDoc :=
  let subnetParts := jsSplit '/' seg.subnet
  let networkIP := subnetParts.getD 0 ""
  let networkIPParts := jsSplit '.' networkIP
  let networkOctet := networkIPParts.getD 2 "undefined"
  let networkBase := networkIPParts.getD 0 "undefined" ++ "." ++
    networkIPParts.getD 1 "undefined" ++ "." ++ networkIPParts.getD 2 "undefined"
  { name := seg.name
    subnet := seg.subnet
    networkOctet := networkOctet
    bridge := "br" ++ networkOctet
    subnetLabel := String.mk (seg.subnet.data.map
      (fun c => if c = '/' || c = '.' then '-' else c))
    connectionLabel := String.mk
      ((if seg.connectionId != "" then seg.connectionId else "unknown").data.map
        (fun c => if c.isAlphanum || c = '_' || c = '-' then c else '-'))
    rangeStart := networkBase ++ ".10"
    rangeEnd := networkBase ++ ".200" }

/-- A machine document: its own name carries the generation token, the
claim reference does not; segNetworks lists the names of the
segment-derived interfaces that follow the default pod interface. -/
structure VMDoc where
  name : String
  pvcName : String
  timestampToken : String
  deviceId : String
  deviceType : String
  cpu : Nat
  memory : String
  segNetworks : List String
  cloudInit : String
deriving Repr, DecidableEq

/-- generateNetworkedKubeVirtVM: none models the TypeError thrown for a
truthy cpu string with no digit. -/
def generateNetworkedKubeVirtVM (device : Device)
    (ipAssignments : List (String × List Assignment)) (iso : String) : Option VMDoc :=
  let token := vmTimestampToken iso
  match parseCpuCores device.cpu device.type with
  | none => none
  | some cpu =>
    let assignments := (lookupA ipAssignments device.id).getD []
    some
      { name := jsLower device.id ++ "-" ++ token
        pvcName := jsLower device.id ++ "-pvc"
        timestampToken := token
        deviceId := device.id
        deviceType := device.type
        cpu := cpu
        memory := normalizeMemory device.memory device.type
        segNetworks := assignments.map (·.network)
        cloudInit := generateCloudInitForDevice device assignments }

def renderPVC (p : PVCDoc) : String :=
  "# PVC for " ++ p.deviceType.toUpper ++ ": " ++ p.deviceId ++
  "\napiVersion: v1\nkind: PersistentVolumeClaim\nmetadata:\n  name: " ++ p.name ++
  "\n  labels:\n    app: containerized-data-importer\n    device-type: " ++ p.deviceType ++
  "\n    device-id: " ++ p.deviceId ++
  "\n  annotations:\n    cdi.kubevirt.io/storage.import.endpoint: https://cdimage.debian.org/images/cloud/bookworm/latest/debian-12-generic-amd64.raw" ++
  "\nspec:\n  accessModes:\n  - ReadWriteOnce\n  resources:\n    requests:\n      storage: " ++ p.storage ++
  "\n  storageClassName: nfs-client"

def renderNAD (n : NADDoc) : String :=
  "apiVersion: k8s.cni.cncf.io/v1\nkind: NetworkAttachmentDefinition\nmetadata:\n  name: " ++ n.name ++
  "\n  labels:\n    network-type: infrastructure-segment\n    network-subnet: " ++ n.subnetLabel ++
  "\n    network-octet: \"" ++ n.networkOctet ++ "\"\n    connection: " ++ n.connectionLabel ++
  "\nspec:\n  config: |\n    \x7b\n      \"cniVersion\": \"0.3.1\",\n      \"name\": \"" ++ n.name ++
  "\",\n      \"type\": \"bridge\",\n      \"bridge\": \"" ++ n.bridge ++
  "\",\n      \"isDefaultGateway\": false,\n      \"isGateway\": false,\n      \"ipMasq\": false,\n      \"hairpinMode\": true,\n      \"ipam\": \x7b\n        \"type\": \"host-local\",\n        \"subnet\": \"" ++ n.subnet ++
  "\",\n        \"rangeStart\": \"" ++ n.rangeStart ++
  "\",\n        \"rangeEnd\": \"" ++ n.rangeEnd ++
  "\"\n      \x7d\n    \x7d"

def renderVM (v : VMDoc) : String :=
  let interfaces := "          - name: default\n            masquerade: \x7b\x7d" ::
    v.segNetworks.map (fun nm => "          - name: " ++ nm ++ "\n            bridge: \x7b\x7d")
  let networks := "      - name: default\n        pod: \x7b\x7d" ::
    v.segNetworks.map (fun nm =>
      "      - name: " ++ nm ++ "\n        multus:\n          networkName: " ++ nm)
  "# " ++ v.deviceType.toUpper ++ ": " ++ v.deviceId ++
  " with Multi-Interface Configuration (" ++ toString v.segNetworks.length ++ " interfaces)" ++
  "\napiVersion: kubevirt.io/v1\nkind: VirtualMachine\nmetadata:\n  name: " ++ v.name ++
  "\n  labels:\n    kubevirt.io/os: linux\n    device-type: " ++ v.deviceType ++
  "\n    device-id: " ++ v.deviceId ++
  "\n    deployment-version: \"" ++ v.timestampToken ++
  "\"\n    interface-count: \"" ++ toString v.segNetworks.length ++
  "\"\nspec:\n  runStrategy: Always\n  template:\n    metadata:\n      labels:\n        deployment-id: \"" ++ v.timestampToken ++
  "\"\n        network-interfaces: \"" ++ toString v.segNetworks.length ++
  "\"\n    spec:\n      domain:\n        cpu:\n          cores: " ++ toString v.cpu ++
  "\n        devices:\n          disks:\n          - disk:\n              bus: virtio\n            name: disk0\n          - cdrom:\n              bus: sata\n              readonly: true\n            name: cloudinitdisk\n          interfaces:\n" ++
  String.intercalate "\n" interfaces ++
  "\n        machine:\n          type: q35\n        resources:\n          requests:\n            memory: " ++ v.memory ++
  "\n      networks:\n" ++ String.intercalate "\n" networks ++
  "\n      volumes:\n      - name: disk0\n        persistentVolumeClaim:\n          claimName: " ++ v.pvcName ++
  "\n      - cloudInitNoCloud:\n          userData: |\n            " ++
  String.intercalate "\n            " (v.cloudInit.splitOn "\n") ++
  "\n        name: cloudinitdisk"

/-- The structured content of a full-bundle export. -/
structure BundleDocs where
  nads : List NADDoc
  pvcs : List PVCDoc
  vms : List VMDoc
deriving Repr, DecidableEq

/-- Sequencing of a possibly throwing generator over a list (the forEach
loop aborts at the first thrown exception). -/
def optionMapList {α β : Type} (f : α → Option β) : List α → Option (List β)
  | [] => some []
  | a :: l =>
    match f a, optionMapList f l with
    | some b, some bs => some (b :: bs)
    | _, _ => none

/-- The documents of the full-bundle export: one network attachment per
segment, one storage claim per device, one machine per device. -/
def fullBundleDocs (devices : List Device) (conns : List Connection) (iso : String) :
    Option BundleDocs :=
  let g := generateConnectionBasedIPAssignments devices conns
  match optionMapList (fun d => generateNetworkedKubeVirtVM d g.1 iso) devices with
  | some vms =>
    some { nads := g.2.map mkNADDoc
           pvcs := devices.map generateDevicePVC
           vms := vms }
  | none => none

/-- The machine documents of the machines-only export. -/
def vmsOnlyDocs (devices : List Device) (conns : List Connection) (iso : String) :
    Option (List VMDoc) :=
  let g := generateConnectionBasedIPAssignments devices conns
  optionMapList (fun d => generateNetworkedKubeVirtVM d g.1 iso) devices

/-- The attachment and claim documents of the claims-only export. -/
def pvcsOnlyDocs (devices : List Device) (conns : List Connection) :
    List NADDoc × List PVCDoc :=
  let a := analyzeConnectionBasedTopology devices conns
  (a.1.map mkNADDoc, devices.map generateDevicePVC)

def nadComponent (nads : List NADDoc) : String :=
  String.intercalate "\n---\n"
    ("# Network Attachment Definitions for Device Connections" :: nads.map renderNAD)

def sectionRule : String := "# ========================================"

def fullBundleHeader (devices : List Device) (conns : List Connection) (iso : String) :
    String :=
  "# KubeVirt Infrastructure with Connection-Based Networking\n# Generated: " ++ iso ++
  "\n# Devices: " ++ toString devices.length ++ " | Connections: " ++ toString conns.length ++
  "\n#\n# NETWORK ARCHITECTURE:\n# - Each connection creates a separate network segment\n# - Routers get custom IPs per interface (user-defined)\n# - Switches get .2 IP on each network\n# - VMs get custom IPs where specified\n# - Each device gets multiple interfaces for multiple connections\n#\n# DEPLOYMENT:\n# 1. Apply this complete file, or\n# 2. Apply PVCs first, wait for import, then apply VMs\n#"

/-- generateKubeVirtInfrastructure: the full bundle as rendered text,
documents joined by the document separator; none models the propagated
TypeError. -/
def generateKubeVirtInfrastructure (devices : List Device) (conns : List Connection)
    (iso : String) : Option String :=
  match fullBundleDocs devices conns iso with
  | none => none
  | some b =>
    some (String.intercalate "\n---\n"
      ([fullBundleHeader devices conns iso, nadComponent b.nads,
        sectionRule, "# Persistent Volume Claims", sectionRule] ++
       b.pvcs.map renderPVC ++
       [sectionRule, "# Virtual Machines with Multi-Interface Networking", sectionRule] ++
       b.vms.map renderVM))

def vmsOnlyHeader (iso : String) : String :=
  "# KubeVirt VMs with Connection-Based Network Configuration\n# Generated: " ++ iso ++
  "\n# \n# IMPORTANT: Apply after PVCs are ready (Status: Succeeded)\n# Check with: kubectl get pvc\n#\n# Each device gets interfaces for all its connections:\n# - Routers get custom IPs per interface (user-defined)\n# - Switches bridge traffic (.2) on each network segment\n# - VMs get custom IPs where specified\n#"

/-- generateVMsOnly as rendered text. -/
def generateVMsOnly (devices : List Device) (conns : List Connection) (iso : String) :
    Option String :=
  match vmsOnlyDocs devices conns iso with
  | none => none
  | some vms =>
    some (String.intercalate "\n---\n"
      ([vmsOnlyHeader iso, sectionRule, "# Virtual Machines with Multi-Interface Setup",
        sectionRule] ++ vms.map renderVM))

def pvcsOnlyHeader (iso : String) (segCount : Nat) : String :=
  "# KubeVirt PVCs and Network Setup\n# Generated: " ++ iso ++
  "\n# \n# Apply this first and wait for CDI import completion\n# Network segments: " ++
  toString segCount ++ "\n#"

/-- generatePVCsOnly as rendered text (this export never touches the
cpu field and cannot throw). -/
def generatePVCsOnly (devices : List Device) (conns : List Connection) (iso : String) :
    String :=
  let d := pvcsOnlyDocs devices conns
  String.intercalate "\n---\n"
    ([pvcsOnlyHeader iso d.1.length, nadComponent d.1,
      sectionRule, "# Persistent Volume Claims", sectionRule] ++
     d.2.map renderPVC)

/-- Outcome of an export endpoint: the yaml response, the explicit
no-devices rejection, or the catch-all internal error. -/
inductive ExportOutcome where
  | ok (yaml : String)
  | noDevicesError
  | internalError
deriving Repr, DecidableEq

/-- GET /export/kubevirt. -/
def exportKubevirt (devices : List Device) (conns : List Connection) (iso : String) :
    ExportOutcome :=
  if devices.length == 0 then .noDevicesError
  else
    match generateKubeVirtInfrastructure devices conns iso with
    | some y => .ok y
    | none => .internalError

/-- GET /export/kubevirt-pvcs. -/
def exportKubevirtPvcs (devices : List Device) (conns : List Connection) (iso : String) :
    ExportOutcome :=
  if devices.length == 0 then .noDevicesError
  else .ok (generatePVCsOnly devices conns iso)

/-- GET /export/kubevirt-vms. -/
def exportKubevirtVms (devices : List Device) (conns : List Connection) (iso : String) :
    ExportOutcome :=
  if devices.length == 0 then .noDevicesError
  else
    match generateVMsOnly devices conns iso with
    | some y => .ok y
    | none => .internalError

end DbArch

namespace DbArch

/-- Freshness of the processed-set keys between two connections: neither
key direction of the second repeats a key direction of the first.  This
is what the registry's duplicate-pair rejection guarantees. -/
def connFresh (a b : Connection) : Prop :=
  connKey b ≠ connKey a ∧ connKey b ≠ connRevKey a ∧
  connRevKey b ≠ connKey a ∧ connRevKey b ≠ connRevKey a

instance (a b : Connection) : Decidable (connFresh a b) := by
  unfold connFresh; infer_instance

/-- Inputs as the registry hands them to the compiler: unique device
ids, no self-connections, and pairwise-distinct unordered device pairs
(expressed through the analyzer's key strings). -/
def WFInputs (devices : List Device) (conns : List Connection) : Prop :=
  (devices.map Device.id).Nodup ∧
  (∀ c ∈ conns, c.fromId ≠ c.toId) ∧
  conns.Pairwise connFresh

instance (devices : List Device) (conns : List Connection) :
    Decidable (WFInputs devices conns) := by
  unfold WFInputs; infer_instance

/-- Closed form of the analyzer's segment list: one segment per
connection, counters increasing from the given start. -/
def segmentsSpecAux (devices : List Device) (counter : Nat) :
    List Connection → List Segment
  | [] => []
  | c :: cs => mkSegment devices counter c :: segmentsSpecAux devices (counter + 1) cs

/-- Closed form of a device's network-name list: the names of the
segments whose device pair contains the id, in segment order. -/
def networksSpec (segs : List Segment) (id : String) : List String :=
  (segs.filter (fun s => s.devA == id || s.devB == id)).map Segment.name

/-- The dotted-quad test the analyzer applies to a candidate IP. -/
def isValidQuad (s : String) : Bool :=
  (jsSplit '.' s).length == 4 && (jsSplit '.' s).all jsOctetOk

/-- First three dot-separated parts of a candidate IP. -/
def quadPrefix (s : String) : String :=
  (jsSplit '.' s).getD 0 "" ++ "." ++ (jsSplit '.' s).getD 1 "" ++ "." ++
  (jsSplit '.' s).getD 2 ""

/-- Amended subnet rule, stated from the spec's words as corrected:
only the first candidate IP is examined; when it is a valid dotted quad
its first three octets become the base, otherwise the synthetic
fallback on the 1-based segment counter is used. -/
def claimSubnet (devices : List Device) (counter : Nat) (c : Connection) : String :=
  match connectionIPs devices c with
  | [] => "192.168." ++ toString counter ++ ".0/24"
  | ip :: _ =>
    if isValidQuad ip then quadPrefix ip ++ ".0/24"
    else "192.168." ++ toString counter ++ ".0/24"

/-- The segment's peer device of d on the connection c, as the claim
phrases it. -/
def claimPeer (c : Connection) (d : Device) : String :=
  if c.fromId = d.id then c.toId else c.fromId

/-- Router resolution priority exactly as the claim states it: the
connection-level router-side IP for this device's role, else the stored
interfaceIPs entry for the segment's peer, else base.1. -/
def claimRouterIP (c : Connection) (d : Device) (base : String) : String :=
  if c.fromId = d.id ∧ jsTruthy c.fromRouterIP then c.fromRouterIP.getD ""
  else if c.toId = d.id ∧ jsTruthy c.toRouterIP then c.toRouterIP.getD ""
  else
    match d.interfaceIPs with
    | some m =>
      match lookupA m ("to_" ++ claimPeer c d) with
      | some v => if v ≠ "" then v else base ++ ".1"
      | none => base ++ ".1"
    | none => base ++ ".1"

/-- Amended non-router resolution: a first-interface trimmed static ip
wins; otherwise a switch takes base.2, and a vm takes base.10 when the
segment's peer device is a router and base.11 otherwise. -/
def claimNonRouterIP (devices : List Device) (c : Connection) (d : Device)
    (index : Nat) (base : String) : String :=
  if index = 0 ∧ jsTruthy d.ip ∧ jsTrim (d.ip.getD "") ≠ "" then jsTrim (d.ip.getD "")
  else if d.type = "switch" then base ++ ".2"
  else
    match devices.find? (fun x => x.id == claimPeer c d) with
    | some od => if od.type = "router" then base ++ ".10" else base ++ ".11"
    | none => base ++ ".11"

/-- Amended gateway rule: the connection-level router-side IP whose
endpoint is a router wins (from side before to side); otherwise base.1,
regardless of how the router's own address was resolved. -/
def claimGateway (devices : List Device) (c : Connection) (base : String) : String :=
  let fromIsRouter :=
    match devices.find? (fun x => x.id == c.fromId) with
    | some x => x.type == "router"
    | none => false
  let toIsRouter :=
    match devices.find? (fun x => x.id == c.toId) with
    | some x => x.type == "router"
    | none => false
  if fromIsRouter = true ∧ jsTruthy c.fromRouterIP = true then c.fromRouterIP.getD ""
  else if toIsRouter = true ∧ jsTruthy c.toRouterIP = true then c.toRouterIP.getD ""
  else base ++ ".1"

/-- The clock-independent part of a machine document (everything except
the token-bearing name and the token label). -/
def vmStable (v : VMDoc) : String × String × String × Nat × String × List String × String :=
  (v.pvcName, v.deviceId, v.deviceType, v.cpu, v.memory, v.segNetworks, v.cloudInit)

/-- The clock-independent part of a full bundle. -/
def bundleStable (b : BundleDocs) :
    List NADDoc × List PVCDoc ×
      List (String × String × String × Nat × String × List String × String) :=
  (b.nads, b.pvcs, b.vms.map vmStable)

/-- Example router with both a stored interface IP and a conflicting
connection-level IP (the priority scenario of the spec). -/
def exR1 : Device :=
  { id := "R1", type := "router", cpu := none, memory := none, storage := none,
    ip := none, interfaceIPs := some [("to_V1", "10.0.0.9")] }

def exV1 : Device :=
  { id := "V1", type := "vm", cpu := none, memory := none, storage := none,
    ip := none, interfaceIPs := none }

def exC1 : Connection :=
  { fromId := "R1", toId := "V1", fromRouterIP := some "10.0.0.5", toRouterIP := none,
    originalSpeed := none }

/-- Example for the subnet rule: the first candidate IP is not a valid
quad while a later one is. -/
def exR2 : Device :=
  { id := "R", type := "router", cpu := none, memory := none, storage := none,
    ip := none, interfaceIPs := none }

def exV2 : Device :=
  { id := "V", type := "vm", cpu := none, memory := none, storage := none,
    ip := some "10.0.0.5", interfaceIPs := none }

def exC2 : Connection :=
  { fromId := "R", toId := "V", fromRouterIP := some "bad", toRouterIP := none,
    originalSpeed := none }

/-- Example for the gateway rule: the router's address resolves from
its stored interfaceIPs entry, not from the connection. -/
def exR3 : Device :=
  { id := "R", type := "router", cpu := none, memory := none, storage := none,
    ip := none, interfaceIPs := some [("to_V", "192.168.1.5")] }

def exV3 : Device :=
  { id := "V", type := "vm", cpu := none, memory := none, storage := none,
    ip := none, interfaceIPs := none }

def exC3 : Connection :=
  { fromId := "R", toId := "V", fromRouterIP := none, toRouterIP := none,
    originalSpeed := none }

/-- Example for the non-router rule: a switch connected to a router. -/
def exS4 : Device :=
  { id := "S", type := "switch", cpu := none, memory := none, storage := none,
    ip := none, interfaceIPs := none }

def exC4 : Connection :=
  { fromId := "S", toId := "R", fromRouterIP := none, toRouterIP := none,
    originalSpeed := none }

/-- A device whose cpu string contains no digit: the generator reads
element 0 of a null match and throws. -/
def cpuBadDevice : Device :=
  { id := "B1", type := "vm", cpu := some "fast", memory := none, storage := none,
    ip := none, interfaceIPs := none }

/-- A well-behaved device for witnesses. -/
def goodDevice : Device :=
  { id := "G1", type := "vm", cpu := some "2", memory := some "4Gi",
    storage := some "20GB", ip := none, interfaceIPs := none }

/-- The processed keys accumulated over a connection prefix. -/
def keysOf : List Connection → List String
  | [] => []
  | c :: cs => connKey c :: connRevKey c :: keysOf cs

/-- The analyzer state after processing a prefix of fresh connections. -/
def stateAfter (devices : List Device) (pre : List Connection) : AnalyzerState :=
  { segments := segmentsSpecAux devices 1 pre
    deviceNetworks := (initDeviceNetworks devices).map
      (fun p => (p.1, networksSpec (segmentsSpecAux devices 1 pre) p.1))
    counter := pre.length + 1
    processed := keysOf pre }

/-- A placeholder machine document (used only to state concrete
witnesses without repeating full document literals). -/
def junkVM : VMDoc :=
  { name := "", pvcName := "", timestampToken := "", deviceId := "", deviceType := "",
    cpu := 0, memory := "", segNetworks := [], cloudInit := "" }

end DbArch

namespace DbArch

theorem jsTruthy_iff (o : Option String) :
    jsTruthy o = true ↔ ∃ s, o = some s ∧ s ≠ "" := by
  cases o <;> simp [jsTruthy]

theorem connFresh_symm : Symmetric connFresh := by
  intro a b h
  obtain ⟨h1, h2, h3, h4⟩ := h
  exact ⟨h1.symm, h3.symm, h2.symm, h4.symm⟩

/-- Closed form of the device-network initialization under unique ids. -/
theorem initDeviceNetworks_aux (devices : List Device) :
    ∀ m : List (String × List String),
      (devices.map Device.id).Nodup →
      (∀ d ∈ devices, m.any (fun p => p.1 == d.id) = false) →
      devices.foldl (fun m d => mapSetEmpty m d.id) m =
        m ++ devices.map (fun d => (d.id, [])) := by
  induction devices with
  | nil => intro m _ _; simp
  | cons d rest ih =>
    intro m hnd hdis
    have hdm : m.any (fun p => p.1 == d.id) = false := hdis d (by simp)
    have hstep : mapSetEmpty m d.id = m ++ [(d.id, [])] := by
      unfold mapSetEmpty
      rw [hdm]
      simp
    have hnd2 : d.id ∉ rest.map Device.id ∧ (rest.map Device.id).Nodup := by
      rw [List.map_cons, List.nodup_cons] at hnd
      exact hnd
    have hnd' : (rest.map Device.id).Nodup := hnd2.2
    have hdnotin : d.id ∉ rest.map Device.id := hnd2.1
    have hdis' : ∀ x ∈ rest, (m ++ [(d.id, [])]).any (fun p => p.1 == x.id) = false := by
      intro x hx
      have h1 : m.any (fun p => p.1 == x.id) = false := hdis x (by simp [hx])
      have h2 : d.id ≠ x.id := by
        intro h
        exact hdnotin (h ▸ List.mem_map_of_mem Device.id hx)
      simp [List.any_append, h1, h2]
    calc rest.foldl (fun m d => mapSetEmpty m d.id) (mapSetEmpty m d.id)
        = rest.foldl (fun m d => mapSetEmpty m d.id) (m ++ [(d.id, [])]) := by rw [hstep]
      _ = (m ++ [(d.id, [])]) ++ rest.map (fun d => (d.id, [])) := ih _ hnd' hdis'
      _ = m ++ (d :: rest).map (fun d => (d.id, [])) := by simp

theorem initDeviceNetworks_eq (devices : List Device)
    (hnd : (devices.map Device.id).Nodup) :
    initDeviceNetworks devices = devices.map (fun d => (d.id, [])) := by
  have := initDeviceNetworks_aux devices [] hnd (by intro d _; rfl)
  simpa [initDeviceNetworks] using this

theorem keysOf_append (pre : List Connection) (c : Connection) :
    keysOf (pre ++ [c]) = keysOf pre ++ [connKey c, connRevKey c] := by
  induction pre with
  | nil => rfl
  | cons x xs ih => simp [keysOf, ih]

theorem mem_keysOf {x : String} {cs : List Connection} (h : x ∈ keysOf cs) :
    ∃ c ∈ cs, x = connKey c ∨ x = connRevKey c := by
  induction cs with
  | nil => cases h
  | cons c cs ih =>
    simp only [keysOf, List.mem_cons] at h
    rcases h with h | h | h
    · exact ⟨c, by simp, Or.inl h⟩
    · exact ⟨c, by simp, Or.inr h⟩
    · obtain ⟨c', hc', ho⟩ := ih h
      exact ⟨c', by simp [hc'], ho⟩

theorem segmentsSpecAux_append (devices : List Device) (c : Connection) :
    ∀ (pre : List Connection) (k : Nat),
      segmentsSpecAux devices k (pre ++ [c]) =
        segmentsSpecAux devices k pre ++ [mkSegment devices (k + pre.length) c] := by
  intro pre
  induction pre with
  | nil => intro k; simp [segmentsSpecAux]
  | cons x xs ih =>
    intro k
    have harith : k + 1 + xs.length = k + (xs.length + 1) := by omega
    simp only [List.cons_append, segmentsSpecAux, List.length_cons, List.append_eq]
    rw [ih (k + 1), harith]

theorem segmentsSpecAux_get? (devices : List Device) :
    ∀ (cs : List Connection) (k i : Nat),
      (segmentsSpecAux devices k cs).get? i =
        (cs.get? i).map (fun c => mkSegment devices (k + i) c) := by
  intro cs
  induction cs with
  | nil => intro k i; simp [segmentsSpecAux]
  | cons c cs ih =>
    intro k i
    cases i with
    | zero => simp [segmentsSpecAux]
    | succ n =>
      simp only [segmentsSpecAux, List.get?_cons_succ, ih (k + 1) n]
      have : k + 1 + n = k + (n + 1) := by omega
      rw [this]

theorem segmentsSpecAux_mem (devices : List Device) :
    ∀ (cs : List Connection) (k : Nat) (seg : Segment),
      seg ∈ segmentsSpecAux devices k cs →
      ∃ c ∈ cs, ∃ n, seg = mkSegment devices n c := by
  intro cs
  induction cs with
  | nil => intro k seg h; cases h
  | cons c cs ih =>
    intro k seg h
    simp only [segmentsSpecAux, List.mem_cons] at h
    rcases h with h | h
    · exact ⟨c, by simp, k, h⟩
    · obtain ⟨c', hc', n, hn⟩ := ih (k + 1) seg h
      exact ⟨c', by simp [hc'], n, hn⟩

theorem networksSpec_append (segs : List Segment) (seg : Segment) (id : String) :
    networksSpec (segs ++ [seg]) id =
      networksSpec segs id ++
        (if seg.devA == id || seg.devB == id then [seg.name] else []) := by
  unfold networksSpec
  rw [List.filter_append, List.map_append]
  congr 1
  by_cases h : (seg.devA == id || seg.devB == id) = true
  · simp [List.filter, h]
  · simp only [Bool.not_eq_true] at h
    simp [List.filter, h]

theorem networksSpec_mem {segs : List Segment} {id nm : String}
    (h : nm ∈ networksSpec segs id) :
    ∃ s ∈ segs, s.name = nm ∧ (s.devA == id || s.devB == id) = true := by
  unfold networksSpec at h
  obtain ⟨s, hs, hname⟩ := List.mem_map.mp h
  have := List.mem_filter.mp hs
  exact ⟨s, this.1, hname, this.2⟩

end DbArch

namespace DbArch

theorem initDeviceNetworks_values (devices : List Device) :
    ∀ p ∈ initDeviceNetworks devices, p.2 = ([] : List String) := by
  unfold initDeviceNetworks
  suffices h : ∀ (m : List (String × List String)),
      (∀ p ∈ m, p.2 = ([] : List String)) →
      ∀ p ∈ devices.foldl (fun m d => mapSetEmpty m d.id) m, p.2 = ([] : List String) by
    exact h [] (by intro p hp; cases hp)
  induction devices with
  | nil => intro m hm; simpa using hm
  | cons d rest ih =>
    intro m hm
    simp only [List.foldl_cons]
    apply ih
    intro p hp
    unfold mapSetEmpty at hp
    by_cases hc : (m.any fun p => p.1 == d.id) = true
    · rw [if_pos hc] at hp
      obtain ⟨q, hq, hpq⟩ := List.mem_map.mp hp
      by_cases hqd : (q.1 == d.id) = true
      · rw [if_pos hqd] at hpq; cases hpq; rfl
      · rw [if_neg (by simpa using hqd)] at hpq
        rw [← hpq]
        exact hm q hq
    · rw [if_neg hc] at hp
      rcases List.mem_append.mp hp with h | h
      · exact hm p h
      · simp only [List.mem_singleton] at h; cases h; rfl

theorem mkSegment_devA (devices : List Device) (n : Nat) (c : Connection) :
    (mkSegment devices n c).devA = c.fromId := rfl

theorem mkSegment_devB (devices : List Device) (n : Nat) (c : Connection) :
    (mkSegment devices n c).devB = c.toId := rfl

theorem mkSegment_name (devices : List Device) (n : Nat) (c : Connection) :
    (mkSegment devices n c).name = "net" ++ toString n := rfl

theorem analyzeStep_fresh (devices : List Device) (pre : List Connection) (c : Connection)
    (hft : c.fromId ≠ c.toId)
    (hk : connKey c ∉ keysOf pre) (hrk : connRevKey c ∉ keysOf pre) :
    analyzeStep devices (stateAfter devices pre) c = stateAfter devices (pre ++ [c]) := by
  have hcond : ((stateAfter devices pre).processed.contains (connKey c) ||
      (stateAfter devices pre).processed.contains (connRevKey c)) = false := by
    have h1 : (stateAfter devices pre).processed.contains (connKey c) = false := by
      simpa [stateAfter] using hk
    have h2 : (stateAfter devices pre).processed.contains (connRevKey c) = false := by
      simpa [stateAfter] using hrk
    rw [h1, h2]; rfl
  unfold analyzeStep
  rw [Bool.eq_false_iff] at hcond
  rw [if_neg hcond]
  have hcounter : (stateAfter devices pre).counter = pre.length + 1 := rfl
  have hseg : (stateAfter devices pre).segments ++
      [mkSegment devices (stateAfter devices pre).counter c] =
      segmentsSpecAux devices 1 (pre ++ [c]) := by
    rw [hcounter, segmentsSpecAux_append]
    have : 1 + pre.length = pre.length + 1 := by omega
    rw [this]
    rfl
  have hproc : (stateAfter devices pre).processed ++ [connKey c, connRevKey c] =
      keysOf (pre ++ [c]) := by
    rw [keysOf_append]; rfl
  have hlen : (stateAfter devices pre).counter + 1 = (pre ++ [c]).length + 1 := by
    rw [hcounter]; simp
  have hnets : pushNetwork (pushNetwork (stateAfter devices pre).deviceNetworks c.fromId
        (mkSegment devices (stateAfter devices pre).counter c).name) c.toId
        (mkSegment devices (stateAfter devices pre).counter c).name =
      (initDeviceNetworks devices).map
        (fun p => (p.1, networksSpec (segmentsSpecAux devices 1 (pre ++ [c])) p.1)) := by
    rw [hcounter]
    show pushNetwork (pushNetwork ((initDeviceNetworks devices).map
        (fun p => (p.1, networksSpec (segmentsSpecAux devices 1 pre) p.1))) c.fromId
        (mkSegment devices (pre.length + 1) c).name) c.toId
        (mkSegment devices (pre.length + 1) c).name = _
    unfold pushNetwork
    rw [List.map_map, List.map_map]
    apply List.map_congr_left
    intro p _
    have hsegapp : segmentsSpecAux devices 1 (pre ++ [c]) =
        segmentsSpecAux devices 1 pre ++ [mkSegment devices (pre.length + 1) c] := by
      rw [segmentsSpecAux_append]
      have : 1 + pre.length = pre.length + 1 := by omega
      rw [this]
    rw [hsegapp, networksSpec_append, mkSegment_devA, mkSegment_devB]
    simp only [Function.comp]
    by_cases hA : (p.1 == c.fromId) = true
    · have hA' : (c.fromId == p.1) = true := by
        rw [beq_iff_eq] at hA ⊢; exact hA.symm
      have hB : (p.1 == c.toId) = false := by
        rw [beq_iff_eq] at hA
        rw [Bool.eq_false_iff]
        intro hB
        rw [beq_iff_eq] at hB
        exact hft (by rw [← hA, ← hB])
      simp [hA, hA', hB]
    · have hA1 : (p.1 == c.fromId) = false := by simpa using hA
      have hA2 : (c.fromId == p.1) = false := by
        rw [beq_eq_false_iff_ne] at hA1 ⊢
        exact fun h => hA1 h.symm
      by_cases hB : (p.1 == c.toId) = true
      · have hB' : (c.toId == p.1) = true := by
          rw [beq_iff_eq] at hB ⊢; exact hB.symm
        simp [hA1, hA2, hB, hB']
      · have hB1 : (p.1 == c.toId) = false := by simpa using hB
        have hB2 : (c.toId == p.1) = false := by
          rw [beq_eq_false_iff_ne] at hB1 ⊢
          exact fun h => hB1 h.symm
        simp [hA1, hA2, hB1, hB2]
  show ({ segments := _, deviceNetworks := _, counter := _, processed := _ } : AnalyzerState) = _
  rw [AnalyzerState.mk.injEq]
  exact ⟨hseg, hnets, hlen, hproc⟩

theorem analyze_foldl (devices : List Device) :
    ∀ (rest pre : List Connection),
      (∀ x ∈ pre ++ rest, x.fromId ≠ x.toId) →
      (pre ++ rest).Pairwise connFresh →
      rest.foldl (analyzeStep devices) (stateAfter devices pre) =
        stateAfter devices (pre ++ rest) := by
  intro rest
  induction rest with
  | nil => intro pre _ _; simp
  | cons c rest' ih =>
    intro pre hself hpw
    have hfr : ∀ a ∈ pre, connFresh a c :=
      fun a ha => (List.pairwise_append.mp hpw).2.2 a ha c (by simp)
    have hk : connKey c ∉ keysOf pre := by
      intro hmem
      obtain ⟨a, ha, hor⟩ := mem_keysOf hmem
      obtain ⟨h1, h2, _, _⟩ := hfr a ha
      rcases hor with h | h
      · exact h1 h
      · exact h2 h
    have hrk : connRevKey c ∉ keysOf pre := by
      intro hmem
      obtain ⟨a, ha, hor⟩ := mem_keysOf hmem
      obtain ⟨_, _, h3, h4⟩ := hfr a ha
      rcases hor with h | h
      · exact h3 h
      · exact h4 h
    have hft : c.fromId ≠ c.toId := hself c (by simp)
    have hassoc : (pre ++ [c]) ++ rest' = pre ++ (c :: rest') := by simp
    calc (c :: rest').foldl (analyzeStep devices) (stateAfter devices pre)
        = rest'.foldl (analyzeStep devices) (analyzeStep devices (stateAfter devices pre) c) := by
          rw [List.foldl_cons]
      _ = rest'.foldl (analyzeStep devices) (stateAfter devices (pre ++ [c])) := by
          rw [analyzeStep_fresh devices pre c hft hk hrk]
      _ = stateAfter devices ((pre ++ [c]) ++ rest') := by
          apply ih
          · rw [hassoc]; exact hself
          · rw [hassoc]; exact hpw
      _ = stateAfter devices (pre ++ (c :: rest')) := by rw [hassoc]

/-- Under well-formed inputs the analyzer computes: one segment per
connection in insertion order with 1-based counters, and for every
device the names of the segments containing it, in segment order. -/
theorem analyze_spec (devices : List Device) (conns : List Connection)
    (h : WFInputs devices conns) :
    analyzeConnectionBasedTopology devices conns =
      (segmentsSpecAux devices 1 conns,
       devices.map (fun d => (d.id, networksSpec (segmentsSpecAux devices 1 conns) d.id))) := by
  obtain ⟨hnd, hself, hpw⟩ := h
  unfold analyzeConnectionBasedTopology
  have h0 : ({ segments := []
               deviceNetworks := initDeviceNetworks devices
               counter := 1
               processed := [] } : AnalyzerState) = stateAfter devices [] := by
    unfold stateAfter
    rw [AnalyzerState.mk.injEq]
    refine ⟨rfl, ?_, rfl, rfl⟩
    have : (initDeviceNetworks devices).map
        (fun p => (p.1, networksSpec (segmentsSpecAux devices 1 []) p.1)) =
        (initDeviceNetworks devices).map (fun p => p) := by
      apply List.map_congr_left
      intro p hp
      have hval := initDeviceNetworks_values devices p hp
      show (p.1, networksSpec [] p.1) = p
      rw [show networksSpec [] p.1 = [] from rfl, ← hval]
    rw [this, List.map_id']
  rw [h0, analyze_foldl devices conns [] (by simpa using hself) (by simpa using hpw)]
  unfold stateAfter
  simp only [List.nil_append]
  rw [initDeviceNetworks_eq devices hnd, List.map_map]
  rfl

end DbArch

namespace DbArch

theorem ne_empty_of_length_pos (s : String) (h : 0 < s.length) : s ≠ "" := by
  intro he
  rw [he] at h
  exact absurd h (by decide)

theorem find?_eq_some_of_unique {α : Type} {p : α → Bool} :
    ∀ {l : List α} {x : α}, x ∈ l → p x = true →
      (∀ y ∈ l, p y = true → y = x) → l.find? p = some x := by
  intro l
  induction l with
  | nil => intro x hx; cases hx
  | cons a l ih =>
    intro x hx hpx hU
    by_cases hpa : p a = true
    · rw [List.find?_cons_of_pos l hpa]
      rw [hU a (by simp) hpa]
    · rw [List.find?_cons_of_neg l hpa]
      have hxa : x ≠ a := fun h => hpa (h ▸ hpx)
      have hxl : x ∈ l := by
        rcases List.mem_cons.mp hx with h | h
        · exact absurd h hxa
        · exact h
      exact ih hxl hpx (fun y hy hpy => hU y (by simp [hy]) hpy)

theorem lookupA_map_id {β : Type} (g : Device → β) :
    ∀ (devices : List Device) (d : Device), d ∈ devices →
      (devices.map Device.id).Nodup →
      lookupA (devices.map (fun x => (x.id, g x))) d.id = some (g d) := by
  intro devices
  induction devices with
  | nil => intro d hd; cases hd
  | cons x rest ih =>
    intro d hd hnd
    have hnd2 : x.id ∉ rest.map Device.id ∧ (rest.map Device.id).Nodup := by
      rw [List.map_cons, List.nodup_cons] at hnd
      exact hnd
    by_cases hx : ((x.id, g x).1 == d.id) = true
    · have hxid : x.id = d.id := by simpa using hx
      have hdx : d = x := by
        rcases List.mem_cons.mp hd with h | h
        · exact h
        · exact absurd (hxid ▸ List.mem_map_of_mem Device.id h) hnd2.1
      unfold lookupA
      rw [List.map_cons]
      have hfind : List.find? (fun p => p.1 == d.id)
          ((x.id, g x) :: rest.map (fun x => (x.id, g x))) = some (x.id, g x) :=
        List.find?_cons_of_pos _ hx
      rw [hfind]
      simp [hdx]
    · have hdrest : d ∈ rest := by
        rcases List.mem_cons.mp hd with h | h
        · exact absurd (by simp [h]) hx
        · exact h
      unfold lookupA
      rw [List.map_cons]
      have hfind : List.find? (fun p => p.1 == d.id)
          ((x.id, g x) :: rest.map (fun x => (x.id, g x))) =
          List.find? (fun p => p.1 == d.id) (rest.map (fun x => (x.id, g x))) :=
        List.find?_cons_of_neg _ hx
      rw [hfind]
      exact ih d hdrest hnd2.2

theorem mkSegment_networkBase (devices : List Device) (n : Nat) (c : Connection) :
    (mkSegment devices n c).networkBase =
      match connectionIPs devices c with
      | [] => "192.168." ++ toString n
      | ip :: _ =>
        if ((jsSplit '.' ip).length == 4 && (jsSplit '.' ip).all jsOctetOk) = true then
          (jsSplit '.' ip).getD 0 "" ++ "." ++ (jsSplit '.' ip).getD 1 "" ++ "." ++
            (jsSplit '.' ip).getD 2 ""
        else "192.168." ++ toString n := by
  unfold mkSegment
  cases connectionIPs devices c with
  | nil => rfl
  | cons ip rest =>
    dsimp only
    split <;> rfl

theorem mkSegment_networkBase_ne (devices : List Device) (n : Nat) (c : Connection) :
    (mkSegment devices n c).networkBase ≠ "" := by
  rw [mkSegment_networkBase]
  cases connectionIPs devices c with
  | nil =>
    apply ne_empty_of_length_pos
    rw [String.length_append]
    have h8 : ("192.168." : String).length = 8 := by decide
    omega
  | cons ip rest =>
    dsimp only
    split
    · apply ne_empty_of_length_pos
      simp only [String.length_append]
      have h1 : ("." : String).length = 1 := by decide
      omega
    · apply ne_empty_of_length_pos
      rw [String.length_append]
      have h8 : ("192.168." : String).length = 8 := by decide
      omega

theorem mkSegment_subnet_claim (devices : List Device) (n : Nat) (c : Connection) :
    (mkSegment devices n c).subnet = claimSubnet devices n c := by
  unfold mkSegment claimSubnet isValidQuad quadPrefix
  cases connectionIPs devices c with
  | nil => rfl
  | cons ip rest =>
    dsimp only
    split <;> rfl

theorem assignLoop_get? (devices : List Device) (conns : List Connection)
    (segs : List Segment) (d : Device) :
    ∀ (names : List String) (i0 i : Nat) (a : Assignment),
      (∀ nm ∈ names, ∃ s ∈ segs, s.name = nm) →
      (assignLoop devices conns segs d i0 names).get? i = some a →
      ∃ seg ∈ segs, a = mkAssignment devices conns d (i0 + i) seg := by
  intro names
  induction names with
  | nil =>
    intro i0 i a _ h
    simp [assignLoop] at h
  | cons nm rest ih =>
    intro i0 i a hex h
    obtain ⟨s0, hs0, hname⟩ := hex nm (by simp)
    have hfind : ∃ y, segs.find? (fun s => s.name == nm) = some y := by
      have : (segs.find? (fun s => s.name == nm)).isSome :=
        List.find?_isSome.mpr ⟨s0, hs0, by simpa using hname⟩
      exact Option.isSome_iff_exists.mp this
    obtain ⟨seg0, hseg0⟩ := hfind
    have hmem0 : seg0 ∈ segs := List.mem_of_find?_eq_some hseg0
    rw [assignLoop, hseg0] at h
    simp only [List.singleton_append] at h
    cases i with
    | zero =>
      simp only [List.get?_cons_zero, Option.some.injEq] at h
      exact ⟨seg0, hmem0, by rw [Nat.add_zero, ← h]⟩
    | succ n =>
      simp only [List.get?_cons_succ] at h
      obtain ⟨seg, hseg, ha⟩ := ih (i0 + 1) n a
        (fun x hx => hex x (by simp [hx])) h
      refine ⟨seg, hseg, ?_⟩
      have : i0 + 1 + n = i0 + (n + 1) := by omega
      rw [ha, this]

/-- Every assignment the pipeline records for a device arises from a
segment of the analyzer, whose underlying connection is recovered by
the assigner's connection search, with the 0-based interface index. -/
theorem assignment_extract (devices : List Device) (conns : List Connection)
    (hwf : WFInputs devices conns) (d : Device) (hd : d ∈ devices)
    (i : Nat) (a : Assignment)
    (ha : (assignmentsOf devices conns d.id).get? i = some a) :
    ∃ seg ∈ pipelineSegments devices conns, ∃ c ∈ conns,
      seg.devA = c.fromId ∧ seg.devB = c.toId ∧ seg.networkBase ≠ "" ∧
      findSegmentConn conns seg = some c ∧
      a = mkAssignment devices conns d i seg := by
  obtain ⟨hnd, hself, hpw⟩ := hwf
  unfold assignmentsOf generateConnectionBasedIPAssignments at ha
  rw [analyze_spec devices conns ⟨hnd, hself, hpw⟩] at ha
  dsimp only at ha
  rw [lookupA_map_id
    (fun x => assignLoop devices conns (segmentsSpecAux devices 1 conns) x 0
      ((lookupA (devices.map (fun y => (y.id, networksSpec (segmentsSpecAux devices 1 conns) y.id))) x.id).getD []))
    devices d hd hnd] at ha
  rw [lookupA_map_id (fun y => networksSpec (segmentsSpecAux devices 1 conns) y.id)
    devices d hd hnd] at ha
  simp only [Option.getD_some] at ha
  have hex : ∀ nm ∈ networksSpec (segmentsSpecAux devices 1 conns) d.id,
      ∃ s ∈ segmentsSpecAux devices 1 conns, s.name = nm := by
    intro nm hnm
    obtain ⟨s, hs, hn, _⟩ := networksSpec_mem hnm
    exact ⟨s, hs, hn⟩
  obtain ⟨seg, hsegmem, haeq⟩ :=
    assignLoop_get? devices conns (segmentsSpecAux devices 1 conns) d
      (networksSpec (segmentsSpecAux devices 1 conns) d.id) 0 i a hex ha
  obtain ⟨c, hc, n, hsegeq⟩ := segmentsSpecAux_mem devices conns 1 seg hsegmem
  have hdevA : seg.devA = c.fromId := by rw [hsegeq, mkSegment_devA]
  have hdevB : seg.devB = c.toId := by rw [hsegeq, mkSegment_devB]
  have hbase : seg.networkBase ≠ "" := by rw [hsegeq]; exact mkSegment_networkBase_ne devices n c
  have hfind : findSegmentConn conns seg = some c := by
    unfold findSegmentConn
    apply find?_eq_some_of_unique hc
    · rw [hdevA, hdevB]
      simp
    · intro y hy hpy
      by_cases hyc : y = c
      · exact hyc
      · exfalso
        have hfr : connFresh y c :=
          List.Pairwise.forall connFresh_symm hpw hy hc hyc
        obtain ⟨hf1, hf2, hf3, hf4⟩ := hfr
        rw [hdevA, hdevB] at hpy
        simp only [Bool.or_eq_true, Bool.and_eq_true, beq_iff_eq] at hpy
        rcases hpy with ⟨h1, h2⟩ | ⟨h1, h2⟩
        · exact hf1 (by unfold connKey; rw [h1, h2])
        · exact hf2 (by unfold connKey connRevKey; rw [h1, h2])
  have hpipe : seg ∈ pipelineSegments devices conns := by
    unfold pipelineSegments
    rw [analyze_spec devices conns ⟨hnd, hself, hpw⟩]
    exact hsegmem
  refine ⟨seg, hpipe, c, hc, hdevA, hdevB, hbase, hfind, ?_⟩
  simpa using haeq

end DbArch

namespace DbArch

theorem baseNetworkOf_eq (seg : Segment) (hbase : seg.networkBase ≠ "") :
    baseNetworkOf seg = seg.networkBase := by
  unfold baseNetworkOf
  rw [if_pos (by simpa using hbase)]

theorem segPeer_eq (seg : Segment) (c : Connection) (d : Device)
    (hA : seg.devA = c.fromId) (hB : seg.devB = c.toId) (hft : c.fromId ≠ c.toId) :
    segPeer seg d.id = some (claimPeer c d) := by
  unfold segPeer claimPeer
  rw [hA, hB]
  by_cases hfd : c.fromId = d.id
  · have h1 : (c.fromId != d.id) = false := by simp [hfd]
    have h2 : (c.toId != d.id) = true := by
      simp only [bne_iff_ne]
      intro h
      exact hft (by rw [hfd, h])
    rw [h1, h2]
    simp [hfd]
  · have h1 : (c.fromId != d.id) = true := by simpa using hfd
    rw [h1]
    simp [hfd]

theorem resolveIP_router (devices : List Device) (conns : List Connection)
    (d : Device) (seg : Segment) (c : Connection) (i : Nat)
    (hr : d.type = "router")
    (hfind : findSegmentConn conns seg = some c)
    (hA : seg.devA = c.fromId) (hB : seg.devB = c.toId)
    (hft : c.fromId ≠ c.toId)
    (hbase : seg.networkBase ≠ "") :
    (resolveIP devices conns d seg i).1 = claimRouterIP c d seg.networkBase := by
  unfold resolveIP claimRouterIP
  rw [baseNetworkOf_eq seg hbase, hfind]
  rw [if_pos (show (d.type == "router") = true by simp [hr])]
  dsimp only
  have hpeer : (segPeer seg d.id).getD "undefined" = claimPeer c d := by
    rw [segPeer_eq seg c d hA hB hft]
    rfl
  by_cases h1a : c.fromId = d.id
  · by_cases h1b : jsTruthy c.fromRouterIP = true
    · obtain ⟨s, hs, hsne⟩ := (jsTruthy_iff _).mp h1b
      have hrc : routerConnIP c d.id = some s := by
        unfold routerConnIP
        rw [if_pos (by simp [h1a, h1b])]
        exact hs
      rw [hrc, if_pos ⟨h1a, h1b⟩, hs]
      rfl
    · have h1b' : jsTruthy c.fromRouterIP = false := by simpa using h1b
      have hrc : routerConnIP c d.id =
          (if c.toId = d.id ∧ jsTruthy c.toRouterIP = true then c.toRouterIP else none) := by
        unfold routerConnIP
        rw [if_neg (by simp [h1b'])]
        by_cases h2a : c.toId = d.id
        · by_cases h2b : jsTruthy c.toRouterIP = true
          · rw [if_pos (by simp [h2a, h2b]), if_pos ⟨h2a, h2b⟩]
          · have h2b' : jsTruthy c.toRouterIP = false := by simpa using h2b
            rw [if_neg (by simp [h2b']), if_neg (by simp [h2b'])]
        · rw [if_neg (by simp [h2a]), if_neg (by simp [h2a])]
      rw [if_neg (by simp [h1b'])]
      by_cases h2 : c.toId = d.id ∧ jsTruthy c.toRouterIP = true
      · obtain ⟨s, hs, hsne⟩ := (jsTruthy_iff _).mp h2.2
        rw [hrc, if_pos h2, if_pos h2, hs]
        rfl
      · rw [hrc, if_neg h2, if_neg h2, hpeer]
        cases d.interfaceIPs with
        | none => rfl
        | some m =>
          dsimp only
          cases lookupA m ("to_" ++ claimPeer c d) with
          | none => rfl
          | some v =>
            dsimp only
            by_cases hv : (v != "") = true
            · rw [if_pos hv, if_pos (by simpa using hv)]
            · rw [if_neg hv, if_neg (by simpa using hv)]
  · have hf : (c.fromId == d.id && jsTruthy c.fromRouterIP) = false := by simp [h1a]
    have hrc : routerConnIP c d.id =
        (if c.toId = d.id ∧ jsTruthy c.toRouterIP = true then c.toRouterIP else none) := by
      unfold routerConnIP
      rw [if_neg (by simp [hf])]
      by_cases h2a : c.toId = d.id
      · by_cases h2b : jsTruthy c.toRouterIP = true
        · rw [if_pos (by simp [h2a, h2b]), if_pos ⟨h2a, h2b⟩]
        · have h2b' : jsTruthy c.toRouterIP = false := by simpa using h2b
          rw [if_neg (by simp [h2b']), if_neg (by simp [h2b'])]
      · rw [if_neg (by simp [h2a]), if_neg (by simp [h2a])]
    rw [if_neg (by simp [h1a])]
    by_cases h2 : c.toId = d.id ∧ jsTruthy c.toRouterIP = true
    · obtain ⟨s, hs, hsne⟩ := (jsTruthy_iff _).mp h2.2
      rw [hrc, if_pos h2, if_pos h2, hs]
      rfl
    · rw [hrc, if_neg h2, if_neg h2, hpeer]
      cases d.interfaceIPs with
      | none => rfl
      | some m =>
        dsimp only
        cases lookupA m ("to_" ++ claimPeer c d) with
        | none => rfl
        | some v =>
          dsimp only
          by_cases hv : (v != "") = true
          · rw [if_pos hv, if_pos (by simpa using hv)]
          · rw [if_neg hv, if_neg (by simpa using hv)]

end DbArch

namespace DbArch

theorem ite_and_bool (b1 b2 : Bool) {α : Type} (x y : α) :
    (if (b1 && b2) = true then x else y) = if b1 = true ∧ b2 = true then x else y := by
  cases b1 <;> cases b2 <;> simp

theorem resolveIP_nonrouter (devices : List Device) (conns : List Connection)
    (d : Device) (seg : Segment) (c : Connection) (i : Nat)
    (hr : d.type ≠ "router")
    (hA : seg.devA = c.fromId) (hB : seg.devB = c.toId)
    (hft : c.fromId ≠ c.toId)
    (hbase : seg.networkBase ≠ "") :
    (resolveIP devices conns d seg i).1 = claimNonRouterIP devices c d i seg.networkBase := by
  unfold resolveIP claimNonRouterIP
  rw [baseNetworkOf_eq seg hbase]
  rw [if_neg (show ¬(d.type == "router") = true by simpa using hr)]
  by_cases h1 : i = 0 ∧ jsTruthy d.ip = true ∧ jsTrim (d.ip.getD "") ≠ ""
  · have hcond : (i == 0 && jsTruthy d.ip && (jsTrim (d.ip.getD "") != "")) = true := by
      simp only [Bool.and_eq_true, beq_iff_eq, bne_iff_ne]
      tauto
    rw [if_pos hcond, if_pos h1]
  · have hcond : (i == 0 && jsTruthy d.ip && (jsTrim (d.ip.getD "") != "")) = false := by
      rw [Bool.eq_false_iff]
      intro hb
      simp only [Bool.and_eq_true, beq_iff_eq, bne_iff_ne] at hb
      exact h1 (by tauto)
    rw [if_neg (by simp [hcond]), if_neg h1]
    by_cases hs : d.type = "switch"
    · rw [if_pos (by simp [hs]), if_pos hs]
    · rw [if_neg (by simpa using hs), if_neg hs]
      rw [segPeer_eq seg c d hA hB hft]
      dsimp only [Option.bind]
      cases hfd : devices.find? (fun x => x.id == claimPeer c d) with
      | none => rfl
      | some od =>
        dsimp only
        by_cases ho : od.type = "router"
        · rw [if_pos (by simp [ho]), if_pos ho]
        · rw [if_neg (by simpa using ho), if_neg ho]

theorem resolveGateway_claim (devices : List Device) (conns : List Connection)
    (seg : Segment) (c : Connection)
    (hfind : findSegmentConn conns seg = some c)
    (hbase : seg.networkBase ≠ "") :
    resolveGateway devices conns seg = claimGateway devices c seg.networkBase := by
  unfold resolveGateway claimGateway
  rw [baseNetworkOf_eq seg hbase, hfind]
  dsimp only
  rw [ite_and_bool, ite_and_bool]

end DbArch

namespace DbArch

/-- C1: for every router device and every segment it participates in,
the address assigner resolves the router's IP on that segment by the
priority chain: (1) the router-side IP recorded on the underlying
connection (fromRouterIP when the router is the from endpoint,
toRouterIP when it is the to endpoint), else (2) the device's stored
interfaceIPs entry for the segment's peer device, else (3) the
auto-default networkBase.1; in particular a connection-level router IP
beats a stored interface IP. -/
theorem router_ip_resolution_priority
    (devices : List Device) (conns : List Connection) (hwf : WFInputs devices conns)
    (d : Device) (hd : d ∈ devices) (hr : d.type = "router")
    (i : Nat) (a : Assignment)
    (ha : (assignmentsOf devices conns d.id).get? i = some a) :
    ∃ seg ∈ pipelineSegments devices conns, ∃ c ∈ conns,
      seg.devA = c.fromId ∧ seg.devB = c.toId ∧
      a.network = seg.name ∧ a.subnet = seg.subnet ∧
      a.ip = claimRouterIP c d seg.networkBase := by
  obtain ⟨seg, hsegmem, c, hc, hA, hB, hbase, hfind, haeq⟩ :=
    assignment_extract devices conns hwf d hd i a ha
  have hft : c.fromId ≠ c.toId := hwf.2.1 c hc
  refine ⟨seg, hsegmem, c, hc, hA, hB, ?_, ?_, ?_⟩
  · rw [haeq]; rfl
  · rw [haeq]; rfl
  · rw [haeq]
    exact resolveIP_router devices conns d seg c i hr hfind hA hB hft hbase

/-- C1 witness: a router with a stored interface IP 10.0.0.9 and a
conflicting connection-level IP 10.0.0.5 receives the connection-level
one. -/
theorem router_ip_resolution_priority_witness :
    WFInputs [exR1, exV1] [exC1] ∧ exR1 ∈ [exR1, exV1] ∧ exR1.type = "router" ∧
    (assignmentsOf [exR1, exV1] [exC1] "R1").get? 0 = some
      { network := "net1", ip := "10.0.0.5", subnet := "10.0.0.0/24",
        gateway := "10.0.0.5", interfaceName := "eth1", isCustomIP := true,
        connectionId := "R1-V1" } ∧
    (∃ seg ∈ pipelineSegments [exR1, exV1] [exC1], ∃ c ∈ [exC1],
      seg.devA = c.fromId ∧ seg.devB = c.toId ∧
      ({ network := "net1", ip := "10.0.0.5", subnet := "10.0.0.0/24",
         gateway := "10.0.0.5", interfaceName := "eth1", isCustomIP := true,
         connectionId := "R1-V1" } : Assignment).network = seg.name ∧
      ({ network := "net1", ip := "10.0.0.5", subnet := "10.0.0.0/24",
         gateway := "10.0.0.5", interfaceName := "eth1", isCustomIP := true,
         connectionId := "R1-V1" } : Assignment).subnet = seg.subnet ∧
      ({ network := "net1", ip := "10.0.0.5", subnet := "10.0.0.0/24",
         gateway := "10.0.0.5", interfaceName := "eth1", isCustomIP := true,
         connectionId := "R1-V1" } : Assignment).ip = claimRouterIP c exR1 seg.networkBase) :=
  ⟨by decide, by decide, rfl, by decide,
   router_ip_resolution_priority [exR1, exV1] [exC1] (by decide) exR1 (by decide) rfl 0 _ (by decide)⟩

/-- C2 counterexample: the claim says a valid candidate anywhere in the
priority list determines the subnet; here the candidate list is
[bad, 10.0.0.5], the second entry is a valid dotted quad, yet the code
falls back to 192.168.1.0/24 instead of 10.0.0.0/24 because only the
first candidate is ever parsed. -/
theorem subnet_any_valid_candidate_counterexample :
    connectionIPs [exR2, exV2] exC2 = ["bad", "10.0.0.5"] ∧
    isValidQuad "bad" = false ∧
    isValidQuad "10.0.0.5" = true ∧
    (pipelineSegments [exR2, exV2] [exC2]).map Segment.subnet = ["192.168.1.0/24"] ∧
    "192.168.1.0/24" ≠ "10.0.0.0/24" :=
  ⟨by decide, by decide, by decide, by decide, by decide⟩

/-- C2 (amended): the k-th segment (0-based, in connection insertion
order) derives its subnet from the first candidate IP only: when that
first candidate is a valid dotted quad its first three octets plus 0/24
are used, otherwise the synthetic fallback 192.168.(k+1).0/24, also
when a later candidate would have been valid. -/
theorem subnet_derivation_first_candidate
    (devices : List Device) (conns : List Connection) (hwf : WFInputs devices conns)
    (k : Nat) (c : Connection) (hc : conns.get? k = some c) :
    ∃ seg, (pipelineSegments devices conns).get? k = some seg ∧
      seg.subnet = claimSubnet devices (k + 1) c ∧
      seg.name = "net" ++ toString (k + 1) := by
  have hS : pipelineSegments devices conns = segmentsSpecAux devices 1 conns := by
    unfold pipelineSegments
    rw [analyze_spec devices conns hwf]
  refine ⟨mkSegment devices (k + 1) c, ?_, ?_, ?_⟩
  · rw [hS, segmentsSpecAux_get? devices conns 1 k, hc]
    have : 1 + k = k + 1 := by omega
    rw [this]
    rfl
  · exact mkSegment_subnet_claim devices (k + 1) c
  · exact mkSegment_name devices (k + 1) c

/-- C2 witness: the amended rule evaluated on the counterexample input,
where the fallback fires. -/
theorem subnet_derivation_first_candidate_witness :
    WFInputs [exR2, exV2] [exC2] ∧ ([exC2].get? 0 = some exC2) ∧
    (∃ seg, (pipelineSegments [exR2, exV2] [exC2]).get? 0 = some seg ∧
      seg.subnet = claimSubnet [exR2, exV2] (0 + 1) exC2 ∧
      seg.name = "net" ++ toString (0 + 1)) :=
  ⟨by decide, rfl,
   subnet_derivation_first_candidate [exR2, exV2] [exC2] (by decide) 0 exC2 rfl⟩

/-- C3 counterexample: the router's address resolves from its stored
interfaceIPs entry to 192.168.1.5, but every assignment on the segment
records gateway 192.168.1.1, not the router's resolved address. -/
theorem gateway_ignores_stored_interface_ip :
    (assignmentsOf [exR3, exV3] [exC3] "R").map (fun a => (a.ip, a.gateway)) =
      [("192.168.1.5", "192.168.1.1")] ∧
    (assignmentsOf [exR3, exV3] [exC3] "V").map Assignment.gateway = ["192.168.1.1"] ∧
    "192.168.1.1" ≠ "192.168.1.5" :=
  ⟨by decide, by decide, by decide⟩

/-- C3 (amended): the gateway recorded in every assignment equals the
connection-level router-side IP of the underlying connection when the
matching endpoint is a router (from side checked before to side), and
networkBase.1 otherwise -- also when the router's own address was
resolved from its stored interfaceIPs entry. -/
theorem gateway_connection_level_or_default
    (devices : List Device) (conns : List Connection) (hwf : WFInputs devices conns)
    (d : Device) (hd : d ∈ devices)
    (i : Nat) (a : Assignment)
    (ha : (assignmentsOf devices conns d.id).get? i = some a) :
    ∃ seg ∈ pipelineSegments devices conns, ∃ c ∈ conns,
      seg.devA = c.fromId ∧ seg.devB = c.toId ∧
      a.network = seg.name ∧
      a.gateway = claimGateway devices c seg.networkBase := by
  obtain ⟨seg, hsegmem, c, hc, hA, hB, hbase, hfind, haeq⟩ :=
    assignment_extract devices conns hwf d hd i a ha
  refine ⟨seg, hsegmem, c, hc, hA, hB, ?_, ?_⟩
  · rw [haeq]; rfl
  · rw [haeq]
    exact resolveGateway_claim devices conns seg c hfind hbase

/-- C3 witness: the vm on the counterexample segment gets the default
gateway 192.168.1.1 as the amended rule states. -/
theorem gateway_connection_level_or_default_witness :
    WFInputs [exR3, exV3] [exC3] ∧ exV3 ∈ [exR3, exV3] ∧
    (assignmentsOf [exR3, exV3] [exC3] "V").get? 0 = some
      { network := "net1", ip := "192.168.1.10", subnet := "192.168.1.0/24",
        gateway := "192.168.1.1", interfaceName := "eth1", isCustomIP := false,
        connectionId := "R-V" } ∧
    (∃ seg ∈ pipelineSegments [exR3, exV3] [exC3], ∃ c ∈ [exC3],
      seg.devA = c.fromId ∧ seg.devB = c.toId ∧
      ({ network := "net1", ip := "192.168.1.10", subnet := "192.168.1.0/24",
         gateway := "192.168.1.1", interfaceName := "eth1", isCustomIP := false,
         connectionId := "R-V" } : Assignment).network = seg.name ∧
      ({ network := "net1", ip := "192.168.1.10", subnet := "192.168.1.0/24",
         gateway := "192.168.1.1", interfaceName := "eth1", isCustomIP := false,
         connectionId := "R-V" } : Assignment).gateway = claimGateway [exR3, exV3] c seg.networkBase) :=
  ⟨by decide, by decide, by decide,
   gateway_connection_level_or_default [exR3, exV3] [exC3] (by decide) exV3 (by decide) 0 _ (by decide)⟩

/-- C4 counterexample: a switch whose segment peer is a router is
assigned networkBase.2, not networkBase.10 as the claim states for
non-router devices with a router peer. -/
theorem switch_gets_dot2_counterexample :
    exS4.type = "switch" ∧ exR2.type = "router" ∧
    (assignmentsOf [exS4, exR2] [exC4] "S").map Assignment.ip = ["192.168.1.2"] ∧
    "192.168.1.2" ≠ "192.168.1.10" :=
  ⟨rfl, rfl, by decide, by decide⟩

/-- C4 (amended): a non-router device's IP on its index-i segment is
its trimmed static ip when i = 0 and that ip is truthy; otherwise a
switch receives networkBase.2, and a vm receives networkBase.10 when
the segment's peer device is a router and networkBase.11 otherwise. -/
theorem nonrouter_ip_resolution
    (devices : List Device) (conns : List Connection) (hwf : WFInputs devices conns)
    (d : Device) (hd : d ∈ devices) (hr : d.type ≠ "router")
    (i : Nat) (a : Assignment)
    (ha : (assignmentsOf devices conns d.id).get? i = some a) :
    ∃ seg ∈ pipelineSegments devices conns, ∃ c ∈ conns,
      seg.devA = c.fromId ∧ seg.devB = c.toId ∧
      a.network = seg.name ∧ a.subnet = seg.subnet ∧
      a.ip = claimNonRouterIP devices c d i seg.networkBase := by
  obtain ⟨seg, hsegmem, c, hc, hA, hB, hbase, hfind, haeq⟩ :=
    assignment_extract devices conns hwf d hd i a ha
  have hft : c.fromId ≠ c.toId := hwf.2.1 c hc
  refine ⟨seg, hsegmem, c, hc, hA, hB, ?_, ?_, ?_⟩
  · rw [haeq]; rfl
  · rw [haeq]; rfl
  · rw [haeq]
    exact resolveIP_nonrouter devices conns d seg c i hr hA hB hft hbase

/-- C4 witness: the switch of the counterexample receives
networkBase.2 as the amended rule states. -/
theorem nonrouter_ip_resolution_witness :
    WFInputs [exS4, exR2] [exC4] ∧ exS4 ∈ [exS4, exR2] ∧ exS4.type ≠ "router" ∧
    (assignmentsOf [exS4, exR2] [exC4] "S").get? 0 = some
      { network := "net1", ip := "192.168.1.2", subnet := "192.168.1.0/24",
        gateway := "192.168.1.1", interfaceName := "eth1", isCustomIP := false,
        connectionId := "S-R" } ∧
    (∃ seg ∈ pipelineSegments [exS4, exR2] [exC4], ∃ c ∈ [exC4],
      seg.devA = c.fromId ∧ seg.devB = c.toId ∧
      ({ network := "net1", ip := "192.168.1.2", subnet := "192.168.1.0/24",
         gateway := "192.168.1.1", interfaceName := "eth1", isCustomIP := false,
         connectionId := "S-R" } : Assignment).network = seg.name ∧
      ({ network := "net1", ip := "192.168.1.2", subnet := "192.168.1.0/24",
         gateway := "192.168.1.1", interfaceName := "eth1", isCustomIP := false,
         connectionId := "S-R" } : Assignment).subnet = seg.subnet ∧
      ({ network := "net1", ip := "192.168.1.2", subnet := "192.168.1.0/24",
         gateway := "192.168.1.1", interfaceName := "eth1", isCustomIP := false,
         connectionId := "S-R" } : Assignment).ip =
        claimNonRouterIP [exS4, exR2] c exS4 0 seg.networkBase) :=
  ⟨by decide, by decide, by decide, by decide,
   nonrouter_ip_resolution [exS4, exR2] [exC4] (by decide) exS4 (by decide) (by decide) 0 _ (by decide)⟩

end DbArch

namespace DbArch

/-- C5: the claim says malformed cpu/memory/storage strings degrade to
documented defaults and generation never raises; in fact a truthy cpu
string with no digit makes the generator throw (the match of the digit
regexp is null and element 0 of it is read), modelled here by none, and
malformed memory and storage strings pass through unchanged instead of
degrading to their defaults. -/
theorem malformed_cpu_crashes_generation :
    parseCpuCores (some "fast") "vm" = none ∧
    generateNetworkedKubeVirtVM cpuBadDevice [] "2026-01-01T00:00" = none ∧
    normalizeStorageQuantity "weird" = "weird" ∧ "weird" ≠ "10Gi" ∧
    normalizeMemory (some "strange") "vm" = "strange" ∧ "strange" ≠ "2G" :=
  ⟨by decide, by decide, by decide, by decide, by decide, by decide⟩

theorem optionMapList_some {α β : Type} (f : α → Option β) :
    ∀ l : List α, (∀ a ∈ l, ∃ b, f a = some b) →
      ∃ bs, optionMapList f l = some bs := by
  intro l
  induction l with
  | nil => intro _; exact ⟨[], rfl⟩
  | cons a l ih =>
    intro h
    obtain ⟨b, hb⟩ := h a (by simp)
    obtain ⟨bs, hbs⟩ := ih (fun x hx => h x (by simp [hx]))
    refine ⟨b :: bs, ?_⟩
    unfold optionMapList
    rw [hb, hbs]

theorem optionMapList_length {α β : Type} (f : α → Option β) :
    ∀ (l : List α) (bs : List β), optionMapList f l = some bs →
      bs.length = l.length := by
  intro l
  induction l with
  | nil =>
    intro bs h
    simp only [optionMapList, Option.some.injEq] at h
    rw [← h]
    rfl
  | cons a l ih =>
    intro bs h
    unfold optionMapList at h
    cases hfa : f a with
    | none => rw [hfa] at h; cases h
    | some b =>
      rw [hfa] at h
      cases hrest : optionMapList f l with
      | none => rw [hrest] at h; cases h
      | some bs' =>
        rw [hrest] at h
        simp only [Option.some.injEq] at h
        rw [← h]
        simp [ih bs' hrest]

theorem optionMapList_mem {α β : Type} (f : α → Option β) :
    ∀ (l : List α) (bs : List β), optionMapList f l = some bs →
      ∀ b ∈ bs, ∃ a ∈ l, f a = some b := by
  intro l
  induction l with
  | nil =>
    intro bs h b hb
    simp only [optionMapList, Option.some.injEq] at h
    rw [← h] at hb
    cases hb
  | cons a l ih =>
    intro bs h b hb
    unfold optionMapList at h
    cases hfa : f a with
    | none => rw [hfa] at h; cases h
    | some b0 =>
      rw [hfa] at h
      cases hrest : optionMapList f l with
      | none => rw [hrest] at h; cases h
      | some bs' =>
        rw [hrest] at h
        simp only [Option.some.injEq] at h
        rw [← h] at hb
        rcases List.mem_cons.mp hb with hb0 | hbs'
        · exact ⟨a, by simp, by rw [hfa, hb0]⟩
        · obtain ⟨a', ha', hfa'⟩ := ih bs' hrest b hbs'
          exact ⟨a', by simp [ha'], hfa'⟩

theorem genVM_isSome (d : Device) (m : List (String × List Assignment)) (iso : String)
    (h : (parseCpuCores d.cpu d.type).isSome = true) :
    ∃ v, generateNetworkedKubeVirtVM d m iso = some v := by
  unfold generateNetworkedKubeVirtVM
  cases hp : parseCpuCores d.cpu d.type with
  | none => rw [hp] at h; cases h
  | some n => exact ⟨_, rfl⟩

theorem genVM_segNetworks (d : Device) (m : List (String × List Assignment)) (iso : String)
    (v : VMDoc) (h : generateNetworkedKubeVirtVM d m iso = some v) :
    v.segNetworks = ((lookupA m d.id).getD []).map Assignment.network := by
  unfold generateNetworkedKubeVirtVM at h
  cases hp : parseCpuCores d.cpu d.type with
  | none => rw [hp] at h; cases h
  | some n =>
    rw [hp] at h
    simp only [Option.some.injEq] at h
    rw [← h]

theorem nonempty_length_bne (devices : List Device) (h : devices ≠ []) :
    (devices.length == 0) = false := by
  cases devices with
  | nil => exact absurd rfl h
  | cons d l => rfl

/-- C6 counterexample: a non-empty device list whose only device has a
digit-free cpu string makes the full and machines-only exports fail
with the internal error, not with manifest text, although the claim
promises rendered text for every non-empty device list. -/
theorem export_internal_error_counterexample :
    ([cpuBadDevice] : List Device) ≠ [] ∧
    exportKubevirt [cpuBadDevice] [] "2026-01-01T00:00" = ExportOutcome.internalError ∧
    exportKubevirtVms [cpuBadDevice] [] "2026-01-01T00:00" = ExportOutcome.internalError ∧
    ExportOutcome.internalError ≠ ExportOutcome.noDevicesError :=
  ⟨by decide, by decide, by decide, by decide⟩

/-- C6 (amended): with an empty device list all three exports signal
the explicit no-devices error and produce no manifest; with a non-empty
list the claims-only export always returns rendered text, and the full
and machines-only exports return rendered text provided every device's
cpu string, when truthy, contains a digit (otherwise they signal the
internal error of C5, not the no-devices error). -/
theorem export_empty_vs_nonempty
    (devices : List Device) (conns : List Connection) (iso : String) :
    (devices = [] →
      exportKubevirt devices conns iso = ExportOutcome.noDevicesError ∧
      exportKubevirtPvcs devices conns iso = ExportOutcome.noDevicesError ∧
      exportKubevirtVms devices conns iso = ExportOutcome.noDevicesError) ∧
    (devices ≠ [] →
      exportKubevirtPvcs devices conns iso =
        ExportOutcome.ok (generatePVCsOnly devices conns iso) ∧
      ((∀ d ∈ devices, (parseCpuCores d.cpu d.type).isSome = true) →
        (∃ y, exportKubevirt devices conns iso = ExportOutcome.ok y) ∧
        (∃ y, exportKubevirtVms devices conns iso = ExportOutcome.ok y))) := by
  constructor
  · intro he
    subst he
    exact ⟨rfl, rfl, rfl⟩
  · intro hne
    have hlen := nonempty_length_bne devices hne
    constructor
    · unfold exportKubevirtPvcs
      rw [if_neg (by simp [hlen])]
    · intro hcpu
      have hvm : ∀ d ∈ devices, ∃ v,
          generateNetworkedKubeVirtVM d
            (generateConnectionBasedIPAssignments devices conns).1 iso = some v :=
        fun d hd => genVM_isSome d _ iso (hcpu d hd)
      obtain ⟨vms, hvms⟩ := optionMapList_some _ devices hvm
      constructor
      · unfold exportKubevirt
        rw [if_neg (by simp [hlen])]
        unfold generateKubeVirtInfrastructure fullBundleDocs
        dsimp only
        rw [hvms]
        exact ⟨_, rfl⟩
      · unfold exportKubevirtVms
        rw [if_neg (by simp [hlen])]
        unfold generateVMsOnly vmsOnlyDocs
        dsimp only
        rw [hvms]
        exact ⟨_, rfl⟩

/-- C6 witness: empty list rejected; a single well-formed device makes
all three exports return rendered text. -/
theorem export_empty_vs_nonempty_witness :
    exportKubevirt [] [] "2026-01-01T00:00" = ExportOutcome.noDevicesError ∧
    ([goodDevice] : List Device) ≠ [] ∧
    (∀ d ∈ [goodDevice], (parseCpuCores d.cpu d.type).isSome = true) ∧
    exportKubevirtPvcs [goodDevice] [] "2026-01-01T00:00" =
      ExportOutcome.ok (generatePVCsOnly [goodDevice] [] "2026-01-01T00:00") ∧
    (∃ y, exportKubevirt [goodDevice] [] "2026-01-01T00:00" = ExportOutcome.ok y) ∧
    (∃ y, exportKubevirtVms [goodDevice] [] "2026-01-01T00:00" = ExportOutcome.ok y) :=
  ⟨((export_empty_vs_nonempty [] [] "2026-01-01T00:00").1 rfl).1,
   by decide, by decide,
   ((export_empty_vs_nonempty [goodDevice] [] "2026-01-01T00:00").2 (by decide)).1,
   (((export_empty_vs_nonempty [goodDevice] [] "2026-01-01T00:00").2 (by decide)).2
     (by decide)).1,
   (((export_empty_vs_nonempty [goodDevice] [] "2026-01-01T00:00").2 (by decide)).2
     (by decide)).2⟩

end DbArch

namespace DbArch

theorem assignLoop_nil_segs (devices : List Device) (conns : List Connection)
    (d : Device) : ∀ (i : Nat) (names : List String),
    assignLoop devices conns [] d i names = [] := by
  intro i names
  induction names generalizing i with
  | nil => rfl
  | cons nm rest ih =>
    unfold assignLoop
    rw [ih (i + 1)]
    rfl

theorem lookupA_map_values_nil (devices : List Device) (f : Device → List Assignment)
    (hf : ∀ d, f d = []) (key : String) :
    (lookupA (devices.map (fun d => (d.id, f d))) key).getD [] = [] := by
  unfold lookupA
  cases h : List.find? (fun p => p.1 == key) (devices.map (fun d => (d.id, f d))) with
  | none => rfl
  | some p =>
    obtain ⟨d, _, hpd⟩ := List.mem_map.mp (List.mem_of_find?_eq_some h)
    show p.2 = []
    rw [← hpd]
    exact hf d

theorem assignments_zero_conns (devices : List Device) (key : String) :
    (lookupA (generateConnectionBasedIPAssignments devices []).1 key).getD [] = [] := by
  have h1 : (generateConnectionBasedIPAssignments devices []).1 =
      devices.map (fun d => (d.id, assignLoop devices [] [] d 0
        ((lookupA (initDeviceNetworks devices) d.id).getD []))) := rfl
  rw [h1]
  exact lookupA_map_values_nil devices _
    (fun d => assignLoop_nil_segs devices [] d 0 _) key

theorem networksOfDevice_zero_conns (devices : List Device) (key : String) :
    networksOfDevice devices [] key = [] := by
  have h1 : networksOfDevice devices [] key =
      (lookupA (initDeviceNetworks devices) key).getD [] := rfl
  rw [h1]
  unfold lookupA
  cases h : List.find? (fun p => p.1 == key) (initDeviceNetworks devices) with
  | none => rfl
  | some p =>
    exact initDeviceNetworks_values devices p (List.mem_of_find?_eq_some h)

/-- C7 counterexample: with zero connections and a single device whose
cpu string has no digit, the full bundle produces no documents at all
(the generator throws), instead of one claim and one machine. -/
theorem zero_connections_crash_counterexample :
    ([cpuBadDevice] : List Device) ≠ [] ∧
    fullBundleDocs [cpuBadDevice] [] "2026-01-01T00:00" = none ∧
    (fullBundleDocs [cpuBadDevice] [] "2026-01-01T00:00").map (fun b => b.pvcs.length) ≠
      some 1 :=
  ⟨by decide, by decide, by decide⟩

/-- C7 (amended): for every non-empty device set with an empty
connection list, provided every device's cpu string (when truthy)
contains a digit, the full bundle yields zero network-attachment
documents, exactly the storage claims of the devices in order, exactly
one machine per device, every machine carrying only the default pod
interface, and every device an empty segment list. -/
theorem zero_connections_bundle (devices : List Device) (iso : String)
    (_hne : devices ≠ [])
    (hcpu : ∀ d ∈ devices, (parseCpuCores d.cpu d.type).isSome = true) :
    ∃ b, fullBundleDocs devices [] iso = some b ∧
      b.nads = [] ∧
      b.pvcs = devices.map generateDevicePVC ∧
      b.vms.length = devices.length ∧
      (∀ vm ∈ b.vms, vm.segNetworks = []) ∧
      (∀ d ∈ devices, networksOfDevice devices [] d.id = []) := by
  have hvm : ∀ d ∈ devices, ∃ v,
      generateNetworkedKubeVirtVM d
        (generateConnectionBasedIPAssignments devices []).1 iso = some v :=
    fun d hd => genVM_isSome d _ iso (hcpu d hd)
  obtain ⟨vms, hvms⟩ := optionMapList_some _ devices hvm
  have hbundle : fullBundleDocs devices [] iso = some
      { nads := (generateConnectionBasedIPAssignments devices []).2.map mkNADDoc
        pvcs := devices.map generateDevicePVC
        vms := vms } := by
    unfold fullBundleDocs
    dsimp only
    rw [hvms]
  refine ⟨_, hbundle, ?_, rfl, ?_, ?_, ?_⟩
  · show (generateConnectionBasedIPAssignments devices []).2.map mkNADDoc = []
    rfl
  · exact optionMapList_length _ devices vms hvms
  · intro vm hvm'
    obtain ⟨d, _, hd⟩ := optionMapList_mem _ devices vms hvms vm hvm'
    rw [genVM_segNetworks d _ iso vm hd, assignments_zero_conns devices d.id]
    rfl
  · intro d _
    exact networksOfDevice_zero_conns devices d.id

/-- C7 witness: one well-formed device, zero connections. -/
theorem zero_connections_bundle_witness :
    ([goodDevice] : List Device) ≠ [] ∧
    (∀ d ∈ [goodDevice], (parseCpuCores d.cpu d.type).isSome = true) ∧
    (∃ b, fullBundleDocs [goodDevice] [] "2026-01-01T00:00" = some b ∧
      b.nads = [] ∧
      b.pvcs = [goodDevice].map generateDevicePVC ∧
      b.vms.length = ([goodDevice] : List Device).length ∧
      (∀ vm ∈ b.vms, vm.segNetworks = []) ∧
      (∀ d ∈ [goodDevice], networksOfDevice [goodDevice] [] d.id = [])) :=
  ⟨by decide, by decide,
   zero_connections_bundle [goodDevice] "2026-01-01T00:00" (by decide) (by decide)⟩

end DbArch

namespace DbArch

theorem optionMapList_map {α β γ : Type} (f : α → Option β) (g : β → γ) :
    ∀ l : List α, (optionMapList f l).map (List.map g) =
      optionMapList (fun a => (f a).map g) l := by
  intro l
  induction l with
  | nil => rfl
  | cons a l ih =>
    unfold optionMapList
    cases hfa : f a with
    | none => rfl
    | some b =>
      cases hrest : optionMapList f l with
      | none =>
        rw [hrest] at ih
        simp only [Option.map_none'] at ih
        rw [← ih]
        rfl
      | some bs =>
        rw [hrest] at ih
        simp only [Option.map_some'] at ih
        rw [← ih]
        rfl

theorem genVM_stable (d : Device) (m : List (String × List Assignment))
    (iso1 iso2 : String) :
    (generateNetworkedKubeVirtVM d m iso1).map vmStable =
      (generateNetworkedKubeVirtVM d m iso2).map vmStable := by
  unfold generateNetworkedKubeVirtVM
  cases parseCpuCores d.cpu d.type <;> rfl

/-- C8: the analyzer-plus-assigner pipeline reads no clock: running the
full bundle at two different timestamps yields identical
network-attachment documents, identical storage claims, and machines
that agree on everything except the token-bearing machine name and the
token label -- in particular identical segment names, subnets, claim
references, interface lists and first-boot scripts (which embed every
assigned IP and gateway). -/
theorem pipeline_time_invariant (devices : List Device) (conns : List Connection)
    (iso1 iso2 : String) :
    (fullBundleDocs devices conns iso1).map bundleStable =
      (fullBundleDocs devices conns iso2).map bundleStable := by
  have key : (optionMapList (fun d => generateNetworkedKubeVirtVM d
        (generateConnectionBasedIPAssignments devices conns).1 iso1) devices).map
        (List.map vmStable) =
      (optionMapList (fun d => generateNetworkedKubeVirtVM d
        (generateConnectionBasedIPAssignments devices conns).1 iso2) devices).map
        (List.map vmStable) := by
    rw [optionMapList_map, optionMapList_map]
    congr 1
    funext a
    exact genVM_stable a _ iso1 iso2
  unfold fullBundleDocs
  dsimp only
  cases h1 : optionMapList (fun d => generateNetworkedKubeVirtVM d
      (generateConnectionBasedIPAssignments devices conns).1 iso1) devices with
  | none =>
    cases h2 : optionMapList (fun d => generateNetworkedKubeVirtVM d
        (generateConnectionBasedIPAssignments devices conns).1 iso2) devices with
    | none => rfl
    | some vms2 =>
      rw [h1, h2] at key
      simp only [Option.map_none', Option.map_some'] at key
      cases key
  | some vms1 =>
    cases h2 : optionMapList (fun d => generateNetworkedKubeVirtVM d
        (generateConnectionBasedIPAssignments devices conns).1 iso2) devices with
    | none =>
      rw [h1, h2] at key
      simp only [Option.map_none', Option.map_some'] at key
      cases key
    | some vms2 =>
      rw [h1, h2] at key
      simp only [Option.map_some', Option.some.injEq] at key
      simp only [Option.map_some', Option.some.injEq]
      unfold bundleStable
      rw [key]

end DbArch

namespace DbArch

theorem optionMapList_get2 {α β : Type} (f : α → Option β) :
    ∀ (l : List α) (bs : List β), optionMapList f l = some bs →
      ∀ (i : Nat) (a : α) (b : β), l.get? i = some a → bs.get? i = some b →
        f a = some b := by
  intro l
  induction l with
  | nil =>
    intro bs _ i a b ha _
    simp at ha
  | cons x l ih =>
    intro bs h i a b ha hb
    unfold optionMapList at h
    cases hfx : f x with
    | none => rw [hfx] at h; cases h
    | some b0 =>
      rw [hfx] at h
      cases hrest : optionMapList f l with
      | none => rw [hrest] at h; cases h
      | some bs' =>
        rw [hrest] at h
        simp only [Option.some.injEq] at h
        rw [← h] at hb
        cases i with
        | zero =>
          simp only [List.get?_cons_zero, Option.some.injEq] at ha hb
          rw [← ha, ← hb]
          exact hfx
        | succ n =>
          simp only [List.get?_cons_succ] at ha hb
          exact ih bs' hrest n a b ha hb

theorem genVM_names (d : Device) (m : List (String × List Assignment)) (iso : String)
    (v : VMDoc) (h : generateNetworkedKubeVirtVM d m iso = some v) :
    v.pvcName = jsLower d.id ++ "-pvc" ∧
    v.name = jsLower d.id ++ "-" ++ vmTimestampToken iso ∧
    v.timestampToken = vmTimestampToken iso := by
  unfold generateNetworkedKubeVirtVM at h
  cases hp : parseCpuCores d.cpu d.type with
  | none => rw [hp] at h; cases h
  | some n =>
    rw [hp] at h
    simp only [Option.some.injEq] at h
    rw [← h]
    exact ⟨rfl, rfl, rfl⟩

/-- C9: every machine document of a machines-only export names its
storage claim by the stable lowercased device id with the -pvc suffix
and no generation token, while the machine's own name carries the
token; the claims-only documents are produced without any clock input,
so a machines-only export at one time binds by name to the claims of a
claims-only export at any other time. -/
theorem pvc_reference_stable (devices : List Device) (conns : List Connection)
    (iso : String) (vms : List VMDoc)
    (hv : vmsOnlyDocs devices conns iso = some vms)
    (i : Nat) (d : Device) (vm : VMDoc)
    (hd : devices.get? i = some d) (hvm : vms.get? i = some vm) :
    vm.pvcName = jsLower d.id ++ "-pvc" ∧
    vm.name = jsLower d.id ++ "-" ++ vmTimestampToken iso ∧
    ∃ pvc, (pvcsOnlyDocs devices conns).2.get? i = some pvc ∧ pvc.name = vm.pvcName := by
  unfold vmsOnlyDocs at hv
  have hgen := optionMapList_get2 _ devices vms hv i d vm hd hvm
  obtain ⟨h1, h2, _⟩ := genVM_names d _ iso vm hgen
  refine ⟨h1, h2, generateDevicePVC d, ?_, ?_⟩
  · show (devices.map generateDevicePVC).get? i = some (generateDevicePVC d)
    rw [List.get?_map, hd]
    rfl
  · rw [h1]
    rfl

/-- C9 witness: a machines-only export of one device at one timestamp
binds to the claim documents, which carry no timestamp at all. -/
theorem pvc_reference_stable_witness :
    vmsOnlyDocs [goodDevice] [] "2026-01-02T03:04" =
      some ((vmsOnlyDocs [goodDevice] [] "2026-01-02T03:04").getD []) ∧
    ([goodDevice] : List Device).get? 0 = some goodDevice ∧
    ((vmsOnlyDocs [goodDevice] [] "2026-01-02T03:04").getD []).get? 0 =
      some ((((vmsOnlyDocs [goodDevice] [] "2026-01-02T03:04").getD []).get? 0).getD junkVM) ∧
    ((((vmsOnlyDocs [goodDevice] [] "2026-01-02T03:04").getD []).get? 0).getD junkVM).pvcName =
      jsLower goodDevice.id ++ "-pvc" ∧
    ((((vmsOnlyDocs [goodDevice] [] "2026-01-02T03:04").getD []).get? 0).getD junkVM).name =
      jsLower goodDevice.id ++ "-" ++ vmTimestampToken "2026-01-02T03:04" ∧
    (∃ pvc, (pvcsOnlyDocs [goodDevice] []).2.get? 0 = some pvc ∧
      pvc.name = ((((vmsOnlyDocs [goodDevice] [] "2026-01-02T03:04").getD []).get? 0).getD junkVM).pvcName) :=
  have happ := pvc_reference_stable [goodDevice] [] "2026-01-02T03:04"
    ((vmsOnlyDocs [goodDevice] [] "2026-01-02T03:04").getD []) rfl 0 goodDevice
    ((((vmsOnlyDocs [goodDevice] [] "2026-01-02T03:04").getD []).get? 0).getD junkVM)
    rfl rfl
  ⟨rfl, rfl, rfl, happ.1, happ.2.1, happ.2.2⟩

end DbArch

namespace DbArch

theorem applyRuleNoB_head_i (isL : Char → Bool) (upper : Char) (hL : isL 'i' = false) :
    ∀ rev : List Char, rev.head? = some 'i' → applyRuleNoB isL upper rev = rev := by
  intro rev h
  cases rev with
  | nil => simp at h
  | cons a rest =>
    have ha : a = 'i' := by simpa using h
    subst ha
    cases rest with
    | nil => rfl
    | cons b rest2 =>
      unfold applyRuleNoB
      dsimp only
      rw [if_neg (by simp [hL])]

theorem applyRuleB_head_i (isL : Char → Bool) (upper : Char) (hL : isL 'i' = false) :
    ∀ rev : List Char, rev.head? = some 'i' → applyRuleB isL upper rev = rev := by
  intro rev h
  cases rev with
  | nil => simp at h
  | cons a rest =>
    have ha : a = 'i' := by simpa using h
    subst ha
    cases rest with
    | nil => rfl
    | cons b rest2 =>
      cases rest2 with
      | nil =>
        show applyRuleNoB isL upper ['i', b] = ['i', b]
        unfold applyRuleNoB
        dsimp only
        rw [if_neg (by simp [hL])]
      | cons c rest3 =>
        have hb : isBchar 'i' = false := by decide
        unfold applyRuleB
        dsimp only
        rw [if_neg (by simp [hb])]
        unfold applyRuleNoB
        dsimp only
        rw [if_neg (by simp [hL])]

theorem applyRuleNoB_out (isL : Char → Bool) (upper : Char) :
    ∀ rev : List Char, applyRuleNoB isL upper rev = rev ∨
      (applyRuleNoB isL upper rev).head? = some 'i' := by
  intro rev
  cases rev with
  | nil => exact Or.inl rfl
  | cons a rest =>
    cases rest with
    | nil => exact Or.inl rfl
    | cons b rest2 =>
      unfold applyRuleNoB
      dsimp only
      by_cases h : (isL a && b.isDigit) = true
      · rw [if_pos h]; exact Or.inr rfl
      · rw [if_neg h]; exact Or.inl rfl

theorem applyRuleB_out (isL : Char → Bool) (upper : Char) :
    ∀ rev : List Char, applyRuleB isL upper rev = rev ∨
      (applyRuleB isL upper rev).head? = some 'i' := by
  intro rev
  cases rev with
  | nil => exact Or.inl rfl
  | cons a rest =>
    cases rest with
    | nil => exact Or.inl rfl
    | cons b rest2 =>
      cases rest2 with
      | nil =>
        have he : applyRuleB isL upper [a, b] = applyRuleNoB isL upper [a, b] := rfl
        rw [he]
        exact applyRuleNoB_out isL upper [a, b]
      | cons c rest3 =>
        unfold applyRuleB
        dsimp only
        by_cases h : (isBchar a && isL b && c.isDigit) = true
        · rw [if_pos h]; exact Or.inr rfl
        · rw [if_neg h]; exact applyRuleNoB_out isL upper _

theorem storageRuleChain_head_i :
    ∀ rev : List Char, rev.head? = some 'i' → storageRuleChain rev = rev := by
  intro rev h
  unfold storageRuleChain
  rw [applyRuleB_head_i isGchar 'G' (by decide) rev h,
      applyRuleB_head_i isMchar 'M' (by decide) rev h,
      applyRuleB_head_i isTchar 'T' (by decide) rev h,
      applyRuleNoB_head_i isGchar 'G' (by decide) rev h,
      applyRuleNoB_head_i isMchar 'M' (by decide) rev h,
      applyRuleNoB_head_i isTchar 'T' (by decide) rev h]

theorem storageRuleChain_out :
    ∀ rev : List Char, storageRuleChain rev = rev ∨
      (storageRuleChain rev).head? = some 'i' := by
  intro rev
  unfold storageRuleChain
  rcases applyRuleB_out isGchar 'G' rev with h1 | h1
  · rw [h1]
    rcases applyRuleB_out isMchar 'M' rev with h2 | h2
    · rw [h2]
      rcases applyRuleB_out isTchar 'T' rev with h3 | h3
      · rw [h3]
        rcases applyRuleNoB_out isGchar 'G' rev with h4 | h4
        · rw [h4]
          rcases applyRuleNoB_out isMchar 'M' rev with h5 | h5
          · rw [h5]
            exact applyRuleNoB_out isTchar 'T' rev
          · rw [applyRuleNoB_head_i isTchar 'T' (by decide) _ h5]
            exact Or.inr h5
        · rw [applyRuleNoB_head_i isMchar 'M' (by decide) _ h4,
              applyRuleNoB_head_i isTchar 'T' (by decide) _ h4]
          exact Or.inr h4
      · rw [applyRuleNoB_head_i isGchar 'G' (by decide) _ h3,
            applyRuleNoB_head_i isMchar 'M' (by decide) _ h3,
            applyRuleNoB_head_i isTchar 'T' (by decide) _ h3]
        exact Or.inr h3
    · rw [applyRuleB_head_i isTchar 'T' (by decide) _ h2,
          applyRuleNoB_head_i isGchar 'G' (by decide) _ h2,
          applyRuleNoB_head_i isMchar 'M' (by decide) _ h2,
          applyRuleNoB_head_i isTchar 'T' (by decide) _ h2]
      exact Or.inr h2
  · rw [applyRuleB_head_i isMchar 'M' (by decide) _ h1,
        applyRuleB_head_i isTchar 'T' (by decide) _ h1,
        applyRuleNoB_head_i isGchar 'G' (by decide) _ h1,
        applyRuleNoB_head_i isMchar 'M' (by decide) _ h1,
        applyRuleNoB_head_i isTchar 'T' (by decide) _ h1]
    exact Or.inr h1

theorem storageRuleChain_idem (rev : List Char) :
    storageRuleChain (storageRuleChain rev) = storageRuleChain rev := by
  rcases storageRuleChain_out rev with h | h
  · rw [h]
    exact h
  · exact storageRuleChain_head_i _ h

theorem applyRuleNoB_no_ws (isL : Char → Bool) (upper : Char)
    (hup : isJsSpace upper = false) :
    ∀ rev : List Char, (∀ c ∈ rev, isJsSpace c = false) →
      ∀ c ∈ applyRuleNoB isL upper rev, isJsSpace c = false := by
  intro rev h c hc
  cases rev with
  | nil => simp [applyRuleNoB] at hc
  | cons a rest =>
    cases rest with
    | nil => exact h c hc
    | cons b rest2 =>
      unfold applyRuleNoB at hc
      dsimp only at hc
      by_cases hcond : (isL a && b.isDigit) = true
      · rw [if_pos hcond] at hc
        rcases List.mem_cons.mp hc with hci | hc2
        · rw [hci]; decide
        · rcases List.mem_cons.mp hc2 with hcu | hc3
          · rw [hcu]; exact hup
          · exact h c (by simp [List.mem_cons.mp hc3])
      · rw [if_neg hcond] at hc
        exact h c hc

theorem applyRuleB_no_ws (isL : Char → Bool) (upper : Char)
    (hup : isJsSpace upper = false) :
    ∀ rev : List Char, (∀ c ∈ rev, isJsSpace c = false) →
      ∀ c ∈ applyRuleB isL upper rev, isJsSpace c = false := by
  intro rev h c hc
  cases rev with
  | nil => simp [applyRuleB, applyRuleNoB] at hc
  | cons a rest =>
    cases rest with
    | nil => exact h c hc
    | cons b rest2 =>
      cases rest2 with
      | nil =>
        have he : applyRuleB isL upper [a, b] = applyRuleNoB isL upper [a, b] := rfl
        rw [he] at hc
        exact applyRuleNoB_no_ws isL upper hup [a, b] h c hc
      | cons x rest3 =>
        unfold applyRuleB at hc
        dsimp only at hc
        by_cases hcond : (isBchar a && isL b && x.isDigit) = true
        · rw [if_pos hcond] at hc
          rcases List.mem_cons.mp hc with hci | hc2
          · rw [hci]; decide
          · rcases List.mem_cons.mp hc2 with hcu | hc3
            · rw [hcu]; exact hup
            · exact h c (by simp [List.mem_cons.mp hc3])
        · rw [if_neg hcond] at hc
          exact applyRuleNoB_no_ws isL upper hup _ h c hc

theorem storageRuleChain_no_ws :
    ∀ rev : List Char, (∀ c ∈ rev, isJsSpace c = false) →
      ∀ c ∈ storageRuleChain rev, isJsSpace c = false := by
  intro rev h
  unfold storageRuleChain
  apply applyRuleNoB_no_ws isTchar 'T' (by decide)
  apply applyRuleNoB_no_ws isMchar 'M' (by decide)
  apply applyRuleNoB_no_ws isGchar 'G' (by decide)
  apply applyRuleB_no_ws isTchar 'T' (by decide)
  apply applyRuleB_no_ws isMchar 'M' (by decide)
  exact applyRuleB_no_ws isGchar 'G' (by decide) rev h

theorem dropWhile_no_ws (l : List Char) (h : ∀ c ∈ l, isJsSpace c = false) :
    l.dropWhile isJsSpace = l := by
  cases l with
  | nil => rfl
  | cons a rest =>
    have ha := h a (by simp)
    simp [List.dropWhile_cons, ha]

theorem trimChars_no_ws (l : List Char) (h : ∀ c ∈ l, isJsSpace c = false) :
    trimChars l = l := by
  unfold trimChars
  rw [dropWhile_no_ws l h]
  rw [dropWhile_no_ws l.reverse (fun c hc => h c (List.mem_reverse.mp hc))]
  exact List.reverse_reverse l

theorem normalize_fix (r : List Char) (hne : r ≠ [])
    (hws : ∀ c ∈ r, isJsSpace c = false)
    (hfix : storageRuleChain r.reverse = r.reverse) :
    normalizeStorageQuantity (String.mk r) = String.mk r := by
  unfold normalizeStorageQuantity
  have hmk : (String.mk r == "") = false := by
    rw [beq_eq_false_iff_ne]
    intro he
    apply hne
    have hd := congrArg String.data he
    simpa using hd
  rw [if_neg (by simp [hmk])]
  show (if (storageRuleChain ((trimChars r).filter (fun c => !isJsSpace c)).reverse).reverse = ([] : List Char)
        then "10Gi"
        else String.mk (storageRuleChain ((trimChars r).filter (fun c => !isJsSpace c)).reverse).reverse) =
    String.mk r
  rw [trimChars_no_ws r hws]
  rw [List.filter_eq_self.mpr (fun a ha => by simp [hws a ha])]
  rw [hfix, List.reverse_reverse]
  rw [if_neg hne]

theorem normalizeStorageQuantity_idem (s : String) :
    normalizeStorageQuantity (normalizeStorageQuantity s) = normalizeStorageQuantity s := by
  by_cases h0 : (s == "") = true
  · have h1 : normalizeStorageQuantity s = "10Gi" := by
      unfold normalizeStorageQuantity
      rw [if_pos h0]
    rw [h1]
    decide
  · have h1 : normalizeStorageQuantity s =
        (if (storageRuleChain ((trimChars s.data).filter (fun c => !isJsSpace c)).reverse).reverse = ([] : List Char)
         then "10Gi"
         else String.mk (storageRuleChain ((trimChars s.data).filter (fun c => !isJsSpace c)).reverse).reverse) := by
      unfold normalizeStorageQuantity
      rw [if_neg h0]
    by_cases h2 : (storageRuleChain ((trimChars s.data).filter (fun c => !isJsSpace c)).reverse).reverse = ([] : List Char)
    · rw [h1, if_pos h2]
      decide
    · rw [h1, if_neg h2]
      have hws : ∀ c ∈ (storageRuleChain ((trimChars s.data).filter (fun c => !isJsSpace c)).reverse).reverse,
          isJsSpace c = false := by
        intro c hc
        rw [List.mem_reverse] at hc
        refine storageRuleChain_no_ws _ ?_ c hc
        intro x hx
        rw [List.mem_reverse] at hx
        have hf := List.mem_filter.mp hx
        simpa using hf.2
      have hfix : storageRuleChain ((storageRuleChain ((trimChars s.data).filter (fun c => !isJsSpace c)).reverse).reverse).reverse =
          ((storageRuleChain ((trimChars s.data).filter (fun c => !isJsSpace c)).reverse).reverse).reverse := by
        rw [List.reverse_reverse]
        exact storageRuleChain_idem _
      exact normalize_fix _ h2 hws hfix

/-- C10: normalizeStorageQuantity is idempotent -- applying it twice
equals applying it once, for every string -- and already-normalized
quantities such as 20Gi, 512Mi, 5Ti and the default 10Gi are fixed
points. -/
theorem normalize_storage_idempotent :
    (∀ s, normalizeStorageQuantity (normalizeStorageQuantity s) = normalizeStorageQuantity s) ∧
    normalizeStorageQuantity "20Gi" = "20Gi" ∧
    normalizeStorageQuantity "512Mi" = "512Mi" ∧
    normalizeStorageQuantity "5Ti" = "5Ti" ∧
    normalizeStorageQuantity "10Gi" = "10Gi" :=
  ⟨normalizeStorageQuantity_idem, by decide, by decide, by decide, by decide⟩

end DbArch
